import Mathlib

/-!
Verification of the business-partner orchestration core (python-backend).

The Python sources are shallowly embedded: pure functions become Lean
functions, dict-shaped session state becomes an explicit record, Python
`None` becomes `Option`, floats become `ℚ`, and code paths that raise
become `Except PyExn`.  External non-determinism (LLM calls, clocks, the
database) is supplied through explicit oracle records.
-/

namespace BP

/-- Exception values raised by the embedded Python code paths. -/
inductive PyExn
  | nameError (v : String)
  | attributeError (m : String)
  | typeError (m : String)
  | httpException (code : Nat)
  deriving DecidableEq, Repr

/-- Role of a LangChain chat message (HumanMessage / AIMessage / SystemMessage). -/
inductive MsgRole
  | human
  | ai
  | system
  deriving DecidableEq, Repr

/-- One item of a multimodal content list (a dict with "type" and "source" keys).
`data` is `source.get("data")`, which may be absent (`none`). -/
structure ContentPart where
  ptype : String
  sourceType : String
  data : Option String
  deriving DecidableEq, Repr

/-- Message content: either a plain string or a multimodal list of parts. -/
inductive MsgContent
  | text (s : String)
  | parts (items : List ContentPart)
  deriving DecidableEq, Repr

/-- A chat message as stored in the state's message history. -/
structure Msg where
  role : MsgRole
  content : MsgContent
  deriving DecidableEq, Repr

/-- Structured photo analysis result (state.py `PhotoInsight`, extended with the
extra keys `_parse_analysis` actually emits). -/
structure PhotoInsight where
  photo_index : Nat
  cleanliness_score : ℚ
  organization_score : ℚ
  stock_level : String
  business_layout_type : String
  evidence_flags : List String
  authenticity_flag : String
  duplicate_flag : String
  photo_note : Option String
  insights : List String
  coaching_tips : List String
  deriving DecidableEq, Repr

/-- Loan offer record (state.py `LoanOffer`). -/
structure LoanOffer where
  amount : ℚ
  term_days : ℤ
  installments : ℤ
  installment_amount : ℚ
  total_repayment : ℚ
  interest_rate_flat : ℚ
  terms_url : String
  deriving DecidableEq, Repr

/- ===== Python string primitives =====

All helpers are built on `String.data` with structural recursion, so that
every definition evaluates inside the kernel. -/

/-- Whether `needle` occurs inside `hay` (empty needle always occurs). -/
def infixOfL (needle : List Char) : List Char → Bool
  | [] => needle.isEmpty
  | c :: rest => needle.isPrefixOf (c :: rest) || infixOfL needle rest

/-- Python `needle in hay` for strings. -/
def pyContains (hay needle : String) : Bool :=
  infixOfL needle.data hay.data

/-- Python `s.lower()` (ASCII case folding; the embedded data is already
lower case outside ASCII). -/
def pyLower (s : String) : String :=
  String.mk (s.data.map Char.toLower)

/-- Python `s.strip()`: remove leading and trailing whitespace. -/
def pyTrim (s : String) : String :=
  String.mk (((s.data.dropWhile Char.isWhitespace).reverse.dropWhile Char.isWhitespace).reverse)

/-- Python `s.startswith(pre)`. -/
def pyStartsWith (s pre : String) : Bool :=
  pre.data.isPrefixOf s.data

/-- Python `s[1:]` (drop the first code point). -/
def strTail (s : String) : String :=
  String.mk s.data.tail

/-- Accumulator loop of `pySplitOn`; `fuel` starts above the input length. -/
def splitOnAuxL (sep : List Char) : Nat → List Char → List Char → List (List Char)
  | 0, _, cur => [cur.reverse]
  | _ + 1, [], cur => [cur.reverse]
  | fuel + 1, c :: rest, cur =>
    if sep.isPrefixOf (c :: rest) then
      cur.reverse :: splitOnAuxL sep fuel ((c :: rest).drop sep.length) []
    else
      splitOnAuxL sep fuel rest (c :: cur)

/-- Python `s.split(sep)` for a non-empty separator (an empty separator keeps
the whole string, mirroring `String.splitOn`). -/
def pySplitOn (s sep : String) : List String :=
  if sep.data = [] then [s]
  else (splitOnAuxL sep.data (s.data.length + 1) s.data []).map String.mk

/-- Python `sep.join(l)`. -/
def pyIntercalate (sep : String) : List String → String
  | [] => ""
  | x :: xs => xs.foldl (fun acc y => acc ++ sep ++ y) x

/-- Python `s.strip(chars)`: remove leading and trailing characters drawn from `cs`. -/
def pyStripChars (cs : List Char) (s : String) : String :=
  let l := s.data.dropWhile (· ∈ cs)
  String.mk ((l.reverse.dropWhile (· ∈ cs)).reverse)

/-- The apostrophe character, U+0027. -/
def apos : Char := Char.ofNat 39

/-- Value of a list of decimal digits. -/
def digitsVal (ds : List Char) : ℕ :=
  ds.foldl (fun a c => a * 10 + (c.toNat - 48)) 0

/-- Exponent part of `pyFloat?` (the `e`/`E` suffix of a float literal). -/
def pyFloatExp (sign : ℚ) (ip fp : List Char) (r : List Char) : Option ℚ :=
  let (es, r2) : ℤ × List Char :=
    match r with
    | '-' :: rr => (-1, rr)
    | '+' :: rr => (1, rr)
    | rr => (1, rr)
  let ed := r2.takeWhile Char.isDigit
  let r3 := r2.dropWhile Char.isDigit
  if ip = [] ∧ fp = [] then none
  else if ed = [] ∨ r3 ≠ [] then none
  else some (sign * ((digitsVal ip : ℚ) + (digitsVal fp : ℚ) / (10 : ℚ) ^ fp.length)
                  * (10 : ℚ) ^ (es * (digitsVal ed : ℤ)))

/-- Python `float(s)` on the common decimal forms: optional surrounding
whitespace, optional sign, digits with at most one point, optional exponent.
(The special spellings `inf`/`nan` and digit underscores are not modelled;
no claim depends on them.)  Returns `none` where Python raises `ValueError`. -/
def pyFloat? (s : String) : Option ℚ :=
  let t := (pyTrim s).data
  let (sign, t1) : ℚ × List Char :=
    match t with
    | '-' :: r => (-1, r)
    | '+' :: r => (1, r)
    | r => (1, r)
  let ip := t1.takeWhile Char.isDigit
  let rest := t1.dropWhile Char.isDigit
  let (fp, rest2) : List Char × List Char :=
    match rest with
    | '.' :: r => (r.takeWhile Char.isDigit, r.dropWhile Char.isDigit)
    | _ => ([], rest)
  match rest2 with
  | [] =>
    if ip = [] ∧ fp = [] then none
    else some (sign * ((digitsVal ip : ℚ) + (digitsVal fp : ℚ) / (10 : ℚ) ^ fp.length))
  | 'e' :: r =>
    pyFloatExp sign ip fp r
  | 'E' :: r =>
    pyFloatExp sign ip fp r
  | _ => none

/- ===== _parse_analysis (onboarding_agent.py lines 286-390) ===== -/

/-- Mutable loop state of `_parse_analysis`, with the Python local defaults. -/
structure ParseSt where
  cleanliness_score : ℚ := 7.5
  organization_score : ℚ := 7.5
  stock_level : String := "medium"
  business_layout_type : String := "cannot_tell"
  evidence_flags : List String := []
  authenticity_flag : String := "unclear"
  duplicate_flag : String := "new_angle_or_scene"
  photo_note : Option String := none
  observations : List String := []
  coaching_tips : List String := []
  current_section : Option String := none
  deriving DecidableEq, Repr

/-- Valid values of `business_layout_type` accepted by the parser. -/
def validLayouts : List String :=
  ["street_stall", "market_stall", "small_shop", "food_stand",
   "salon_or_barbershop", "workshop", "home_based_other", "cannot_tell"]

/-- Python truthiness of an optional string (`None` and `""` are falsy). -/
def pyTruthyStr : Option String → Bool
  | none => false
  | some s => s ≠ ""

/-- Capitalised keyword prefixes of the photo-note continuation guard
(`line.startswith(("Cleanliness", ...))`). -/
def noteGuardCaps : List String :=
  ["Cleanliness", "Organization", "Stock", "Business", "Evidence",
   "Authenticity", "Duplicate", "Observations", "Coaching"]

/-- Lower-case keyword prefixes of the inner photo-note continuation guard. -/
def noteGuardLower : List String :=
  ["cleanliness", "organization", "stock", "business", "evidence",
   "authenticity", "duplicate", "observations", "coaching"]

/-- One iteration of the `_parse_analysis` line loop.  A failing `float(...)`
(`except: pass`) leaves the default score in place and records nothing. -/
def parseLine (st : ParseSt) (rawLine : String) : ParseSt :=
  let line := pyTrim rawLine
  if line = "" then st else
  let low := pyLower line
  -- `line.split(":")[1]`; the startswith guards below guarantee a colon exists
  let seg1 := (pySplitOn line ":").getD 1 ""
  if pyStartsWith low "cleanliness:" then
    match pyFloat? ((pySplitOn (pyTrim seg1) "/").getD 0 "") with
    | some v => { st with cleanliness_score := v }
    | none => st
  else if pyStartsWith low "organization:" then
    match pyFloat? ((pySplitOn (pyTrim seg1) "/").getD 0 "") with
    | some v => { st with organization_score := v }
    | none => st
  else if pyStartsWith low "stock level:" then
    let level := pyLower (pyTrim seg1)
    if level ∈ ["low", "medium", "high"] then { st with stock_level := level } else st
  else if pyStartsWith low "business_layout_type:" ∨ pyStartsWith low "layout type:" then
    let layout := pyLower (pyTrim seg1)
    if layout ∈ validLayouts then { st with business_layout_type := layout } else st
  else if pyStartsWith low "evidence_flags:" ∨ pyStartsWith low "evidence:" then
    let flagsText := pyStripChars ['[', ']'] (pyTrim seg1)
    let flags := (pySplitOn flagsText ",").map fun f =>
      pyStripChars [apos] (pyStripChars ['"'] (pyTrim f))
    { st with evidence_flags := flags.filter (· ≠ "") }
  else if pyStartsWith low "authenticity flag:" then
    let auth := pyLower (pyTrim seg1)
    if auth ∈ ["looks_genuine", "looks_like_stock_photo", "unclear"] then
      { st with authenticity_flag := auth }
    else st
  else if pyStartsWith low "duplicate flag:" then
    let dup := pyLower (pyTrim seg1)
    if dup ∈ ["new_angle_or_scene", "possible_duplicate_of_previous"] then
      { st with duplicate_flag := dup }
    else st
  else if pyStartsWith low "photo note" ∧ pyContains line ":" then
    -- `line.split(":", 1)[1].strip()`
    let noteText := pyTrim (pyIntercalate ":" ((pySplitOn line ":").drop 1))
    if noteText ≠ "" then { st with photo_note := some noteText } else st
  else if pyStartsWith low "observations:" then
    { st with current_section := some "observations" }
  else if pyStartsWith low "coaching tips:" then
    { st with current_section := some "coaching" }
  else if pyStartsWith line "-" ∨ pyStartsWith line "•" then
    let text := pyTrim (strTail line)
    match st.current_section with
    | some "observations" => { st with observations := st.observations ++ [text] }
    | some "coaching" => { st with coaching_tips := st.coaching_tips ++ [text] }
    | _ => st
  else if st.current_section = none ∧ pyTruthyStr st.photo_note
          ∧ ¬ noteGuardCaps.any (pyStartsWith line ·) then
    if ¬ noteGuardLower.any (pyStartsWith low ·) then
      match st.photo_note with
      | some pn => { st with photo_note := some (pn ++ " " ++ line) }
      | none => st
    else st
  else st

/-- Embedding of `OnboardingAgent._parse_analysis`: fold the line parser over
the stripped analysis text and substitute the documented defaults where a
section never parsed. -/
def parseAnalysis (analysis_text : String) (photo_index : ℕ) : PhotoInsight :=
  let lines := pySplitOn (pyTrim analysis_text) "\n"
  let st := lines.foldl parseLine {}
  { photo_index := photo_index
    cleanliness_score := st.cleanliness_score
    organization_score := st.organization_score
    stock_level := st.stock_level
    business_layout_type := st.business_layout_type
    evidence_flags := st.evidence_flags
    authenticity_flag := st.authenticity_flag
    duplicate_flag := st.duplicate_flag
    photo_note := st.photo_note
    insights := if st.observations = [] then ["Photo analyzed successfully"] else st.observations
    coaching_tips :=
      if st.coaching_tips = [] then ["Continue maintaining your business well"] else st.coaching_tips }

/-- Anomaly log emitted by `_parse_analysis`.  The source's failure handlers are
bare `except: pass` and validation fallthroughs: the function contains no
logging, counter, or state write on a parse failure, so the log is empty for
every input. -/
def parseAnalysisAnomalyLog (_analysis_text : String) : List String := []

/- ===== Servicing sub-records (servicing_agent.py dict payloads) ===== -/

/-- Entry of a payment schedule (`generate_payment_schedule`). -/
structure ScheduleEntry where
  installment_number : ℤ
  due_date : String
  amount : ℚ
  status : String
  deriving DecidableEq, Repr

/-- Payment schedule payload (`generate_payment_schedule`). -/
structure PaymentSchedule where
  total_installments : ℤ
  installment_amount : ℚ
  total_amount : ℚ
  schedule : List ScheduleEntry
  days_between_payments : ℤ
  deriving DecidableEq, Repr

/-- Disbursement payload: either the error dict built when no loan offer
exists, or the mock disbursement info dict. -/
inductive DisbursementInfo
  | errorNoOffer
  | info (amount : ℚ) (status : String) (initiated_at : String)
      (estimated_completion : String) (bank_account : String) (reference_number : String)
  deriving DecidableEq, Repr

/-- Repayment payload: either the error dict built when no loan offer exists,
or the mock repayment info dict (method-specific keys are optional). -/
inductive RepaymentInfo
  | errorNoOffer
  | info (method : Option String) (amount : ℚ) (status : String) (initiated_at : String)
      (reference_number : String) (bank_account : Option String)
      (estimated_completion : Option String) (location : Option String)
      (instructions : Option String)
  deriving DecidableEq, Repr

/-- Recovery conversation payload (`handle_recovery_conversation`). -/
structure RecoveryInfo where
  status : Option String
  conversation_active : Bool
  last_interaction : String
  resolution_type : Option String
  deriving DecidableEq, Repr

/- ===== Session state (state.py BusinessPartnerState) ===== -/

/-- The shared LangGraph session state.  Every key of the Python TypedDict is a
field; Python `None` is `none`.  `coaching_provided` mirrors the key read at
onboarding_agent.py line 903: it is not declared in the TypedDict and no code
ever writes it, so `state.get` always yields `None` for it.  `loan_saved`
mirrors the `_loan_saved` flag returned by the underwriting agent. -/
structure State where
  messages : List Msg
  session_id : String
  user_id : String
  conversation_id : Option String
  business_name : Option String
  business_type : Option String
  location : Option String
  years_operating : Option ℤ
  monthly_revenue : Option ℚ
  monthly_expenses : Option ℚ
  num_employees : Option ℤ
  loan_purpose : Option String
  photos : List (Option String)
  photo_insights : List PhotoInsight
  risk_score : Option ℚ
  risk_tier : Option String
  key_risk_factors : List String
  key_strengths : List String
  loan_offer : Option LoanOffer
  phase : String
  onboarding_stage : String
  info_complete : Bool
  photos_received : Bool
  loan_offered : Bool
  loan_accepted : Bool
  required_tasks : List String
  completed_tasks : List String
  next_agent : Option String
  system_prompt : Option String
  servicing_type : Option String
  disbursement_status : Option String
  disbursement_info : Option DisbursementInfo
  repayment_status : Option String
  repayment_info : Option RepaymentInfo
  repayment_method : Option String
  payment_schedule : Option PaymentSchedule
  repayment_impact_explanation : Option String
  recovery_status : Option String
  recovery_info : Option RecoveryInfo
  recovery_response : Option String
  bank_account : Option String
  persona_id : Option String
  coaching_advice : Option String
  coaching_provided : Option Bool
  loan_saved : Bool
  deriving DecidableEq, Repr

/-- The fixed onboarding checklist (main.py lines 177-183). -/
def requiredTasksList : List String :=
  ["confirm_eligibility", "capture_business_profile", "capture_business_financials",
   "capture_business_photos", "photo_analysis_complete"]

/-- Fresh per-session state for a brand-new session (main.py lines 222-267);
`msgs` is `langchain_messages[-1:]`, the latest user message only. -/
def freshState (session_id user_id : String) (conversation_id : Option String)
    (sys : Option String) (msgs : List Msg := []) : State :=
  { messages := msgs
    session_id := session_id
    user_id := user_id
    conversation_id := conversation_id
    business_name := none
    business_type := none
    location := none
    years_operating := none
    monthly_revenue := none
    monthly_expenses := none
    num_employees := none
    loan_purpose := none
    photos := []
    photo_insights := []
    risk_score := none
    risk_tier := none
    key_risk_factors := []
    key_strengths := []
    loan_offer := none
    phase := "onboarding"
    onboarding_stage := "info_gathering"
    info_complete := false
    photos_received := false
    loan_offered := false
    loan_accepted := false
    required_tasks := requiredTasksList
    completed_tasks := []
    next_agent := none
    system_prompt := sys
    servicing_type := none
    disbursement_status := none
    disbursement_info := none
    repayment_status := none
    repayment_info := none
    repayment_method := none
    payment_schedule := none
    repayment_impact_explanation := none
    recovery_status := none
    recovery_info := none
    recovery_response := none
    bank_account := none
    persona_id := none
    coaching_advice := none
    coaching_provided := none
    loan_saved := false }

/- ===== Onboarding agent helpers (onboarding_agent.py) ===== -/

/-- Embedding of `_mark_task_complete`: append the task id unless present. -/
def markTaskComplete (s : State) (task_id : String) : State :=
  if task_id ∈ s.completed_tasks then s
  else { s with completed_tasks := s.completed_tasks ++ [task_id] }

/-- Embedding of `_check_all_tasks_complete`. -/
def checkAllTasksComplete (s : State) : Bool :=
  s.required_tasks.all (· ∈ s.completed_tasks)

/-- Embedding of `_check_if_info_complete` (`is not None` checks). -/
def checkIfInfoComplete (s : State) : Bool :=
  s.business_type.isSome ∧ s.location.isSome ∧ s.monthly_revenue.isSome ∧ s.loan_purpose.isSome

/-- Embedding of `_check_if_loan_accepted`: keyword scan over the last message
(whatever its role), only when its content is a plain string. -/
def checkIfLoanAccepted (messages : List Msg) : Bool :=
  match messages.getLast? with
  | none => false
  | some m =>
    match m.content with
    | .text c =>
      let cl := pyTrim (pyLower c)
      (["yes", "sí", "si", "accept", "acepto", "okay", "ok"]).any (pyContains cl ·)
    | .parts _ => false

/-- Embedding of `_should_call_underwriting_agent`. -/
def shouldCallUnderwriting (s : State) : Bool :=
  checkAllTasksComplete s ∧ 0 < s.photo_insights.length ∧ ¬ s.loan_offered

/-- The string "can't pay" (built without a literal apostrophe). -/
def kwCantPay : String := "can" ++ String.singleton apos ++ "t pay"

/-- Servicing-intent keywords scanned by `_should_call_servicing_agent`. -/
def servicingKeywords : List String :=
  ["payment", "repay", "installment", "due date", "schedule",
   "disbursement", "when will I receive", "bank account",
   "trouble paying", kwCantPay, "late payment", "missed payment",
   "recovery", "payment plan", "promise to pay"]

/-- Content of the last message when it is a plain string, else `none`
(the role is not inspected, mirroring the source). -/
def lastTextContent (messages : List Msg) : Option String :=
  match messages.getLast? with
  | none => none
  | some m =>
    match m.content with
    | .text c => some c
    | .parts _ => none

/-- Embedding of `_should_call_servicing_agent`. -/
def shouldCallServicing (s : State) : Bool :=
  if s.loan_accepted ∧ ¬ pyTruthyStr s.disbursement_status then true
  else
    let kwHit :=
      match lastTextContent s.messages with
      | some c => servicingKeywords.any (pyContains (pyLower c) ·)
      | none => false
    if kwHit then true
    else
      match s.recovery_status with
      | some r => r ≠ "" ∧ r ∉ ["resolved", "escalated"]
      | none => false

/-- Embedding of `_detect_servicing_type`. -/
def detectServicingType (s : State) : String :=
  let lc :=
    match lastTextContent s.messages with
    | some c => pyLower c
    | none => ""
  if s.loan_accepted ∧ ¬ pyTruthyStr s.disbursement_status then "disbursement"
  else if (["trouble", "difficulty", kwCantPay, "late", "missed", "help"]).any (pyContains lc ·) then
    "recovery"
  else if (["payment", "repay", "installment", "pay now"]).any (pyContains lc ·) then
    "repayment"
  else if (["schedule", "when", "due date", "payment dates"]).any (pyContains lc ·) then
    "payment_schedule"
  else if (["impact", "affect", "future loan", "credit", "eligibility"]).any (pyContains lc ·) then
    "repayment_impact"
  else "general"

/-- Python truthiness of an optional Bool (`state.get` on a flag key). -/
def pyTruthyBool : Option Bool → Bool
  | none => false
  | some b => b

/-- Routing block of `OnboardingAgent.process` (lines 897-907): the
`next_agent` signal and, when servicing is selected, the servicing type. -/
def computeRouting (s : State) : Option String × Option String :=
  if shouldCallUnderwriting s then (some "underwriting", none)
  else if s.loan_accepted ∧ ¬ pyTruthyBool s.coaching_provided then (some "coaching", none)
  else if shouldCallServicing s then (some "servicing", some (detectServicingType s))
  else (none, none)

/-- Phase step 1 (lines 884-885): an offer moves `onboarding` to `offer`. -/
def phaseStepOffer (s : State) : State :=
  if s.loan_offer.isSome ∧ s.phase = "onboarding" then { s with phase := "offer" } else s

/-- Phase step 2 (lines 888-890): acceptance plus completed disbursement moves
`onboarding` or `offer` to `post_disbursement`. -/
def phaseStepPost (s : State) : State :=
  if s.loan_accepted ∧ s.disbursement_status = some "completed"
     ∧ (s.phase = "onboarding" ∨ s.phase = "offer") then
    { s with phase := "post_disbursement" }
  else s

/-- Truthy, non-terminal recovery status
(`recovery_status and recovery_status not in ["resolved", "escalated", None]`). -/
def recoveryOpen (s : State) : Bool :=
  match s.recovery_status with
  | some r => r ≠ "" ∧ r ∉ ["resolved", "escalated"]
  | none => false

/-- Phase step 3 (lines 893-895): an open recovery status moves
`post_disbursement` to `delinquent`. -/
def phaseStepDelinquent (s : State) : State :=
  if recoveryOpen s ∧ s.phase = "post_disbursement" then { s with phase := "delinquent" } else s

/-- The whole phase-update block of `OnboardingAgent.process` (lines 882-895). -/
def phaseUpdate (s : State) : State :=
  phaseStepDelinquent (phaseStepPost (phaseStepOffer s))

/-- Result of the extraction LLM call (`extract_business_info`): the `updates`
dict, which carries only the keys whose extracted value was not null. -/
structure Extracted where
  business_type : Option String := none
  location : Option String := none
  years_operating : Option ℤ := none
  num_employees : Option ℤ := none
  monthly_revenue : Option ℚ := none
  monthly_expenses : Option ℚ := none
  loan_purpose : Option String := none
  deriving DecidableEq, Repr

/-- Overwrite-with-extracted: an extracted value replaces the state value,
an absent one keeps it. -/
def updField {α : Type} (newv cur : Option α) : Option α :=
  match newv with
  | some v => some v
  | none => cur

/-- Application of the extracted updates plus the task marks of
`process` lines 818-833. -/
def applyExtraction (e : Extracted) (s : State) : State :=
  let s1 := { s with
    business_type := updField e.business_type s.business_type
    location := updField e.location s.location
    years_operating := updField e.years_operating s.years_operating
    num_employees := updField e.num_employees s.num_employees
    monthly_revenue := updField e.monthly_revenue s.monthly_revenue
    monthly_expenses := updField e.monthly_expenses s.monthly_expenses
    loan_purpose := updField e.loan_purpose s.loan_purpose }
  let profileTouched := e.business_type.isSome ∨ e.location.isSome
      ∨ e.years_operating.isSome ∨ e.num_employees.isSome
  let finTouched := e.monthly_revenue.isSome ∨ e.monthly_expenses.isSome ∨ e.loan_purpose.isSome
  let s2 := if profileTouched then markTaskComplete s1 "capture_business_profile" else s1
  if finTouched then markTaskComplete s2 "capture_business_financials" else s2

/-- Embedding of `_detect_photos_in_message`: base64 image parts of the latest
message when its content is a multimodal list. -/
def detectPhotosInMessage (messages : List Msg) : List (Option String) :=
  match messages.getLast? with
  | none => []
  | some m =>
    match m.content with
    | .parts items =>
      ((items.filter fun it => it.ptype = "image" ∧ it.sourceType = "base64").map (·.data))
    | .text _ => []

/-- Photo intake and analysis of `process` lines 835-868; `analysisText i` is
the vision model's reply for photo `i`, parsed by `parseAnalysis`. -/
def applyPhotos (analysisText : ℕ → String) (s : State) : State :=
  let newPhotos := detectPhotosInMessage s.messages
  let s1 := if newPhotos ≠ [] then { s with photos := s.photos ++ newPhotos } else s
  let numPhotos := s1.photos.length
  let numAnalyzed := s1.photo_insights.length
  if numAnalyzed < numPhotos then
    let insights := (List.range' numAnalyzed (numPhotos - numAnalyzed)).foldl
      (fun acc idx =>
        match s1.photos.getD idx none with
        | some pb => if pb ≠ "" then acc ++ [parseAnalysis (analysisText idx) idx] else acc
        | none => acc)
      s1.photo_insights
    let s2 := { s1 with photo_insights := insights }
    let s3 := if 0 < numPhotos then markTaskComplete s2 "capture_business_photos" else s2
    if 0 < insights.length then markTaskComplete s3 "photo_analysis_complete" else s3
  else s1

/-- Eligibility mark and loan-acceptance update of `process` lines 870-880. -/
def applyEligibilityAcceptance (s : State) : State :=
  let s1 := if pyTruthyStr s.business_type ∧ pyTruthyStr s.location then
      markTaskComplete s "confirm_eligibility"
    else s
  if s1.loan_offered ∧ ¬ s1.loan_accepted ∧ checkIfLoanAccepted s1.messages then
    { s1 with loan_accepted := true }
  else s1

/-- System-prompt assembly of `process` lines 790-816: prepend the language
instruction extracted from the frontend prompt, when one is present. -/
def computeSystemPrompt (base : String) (sp : Option String) : String :=
  match sp with
  | none => base
  | some fp =>
    if fp ≠ "" ∧ (pyContains fp "LANGUAGE REQUIREMENT" ∨ pyContains fp "CRITICAL LANGUAGE REQUIREMENT") then
      let langKeyword :=
        if pyContains fp "CRITICAL LANGUAGE REQUIREMENT" then "CRITICAL LANGUAGE REQUIREMENT"
        else "LANGUAGE REQUIREMENT"
      if pyContains fp langKeyword then
        -- `frontend_prompt[frontend_prompt.find(lang_keyword):]`
        let langSection := langKeyword ++ pyIntercalate langKeyword ((pySplitOn fp langKeyword).drop 1)
        let langInstruction :=
          if pyContains langSection "\n\n" then (pySplitOn langSection "\n\n").getD 0 ""
          else if pyContains langSection "\n" then (pySplitOn langSection "\n").getD 0 ""
          else langSection
        langInstruction ++ "\n\n" ++ base
      else base
    else base

/-- External inputs of one `OnboardingAgent.process` call: the fetched base
prompt, the extraction result, the vision replies, and the reply text. -/
structure PrimaryOracle where
  basePrompt : String := ""
  extracted : Extracted := {}
  analysisText : ℕ → String := fun _ => ""
  responseText : String := ""

/-- Embedding of `OnboardingAgent.process` (lines 783-931): the state after the
node's in-place updates and its returned partial update are applied. -/
def primaryStep (o : PrimaryOracle) (s : State) : State :=
  let sysPrompt := computeSystemPrompt o.basePrompt s.system_prompt
  let s1 := applyExtraction o.extracted s
  let s2 := applyPhotos o.analysisText s1
  let s3 := applyEligibilityAcceptance s2
  let s4 := phaseUpdate s3
  { s4 with
    messages := s4.messages ++ [⟨.ai, .text o.responseText⟩]
    system_prompt := some sysPrompt
    info_complete := checkIfInfoComplete s4
    photos_received := 0 < s4.photos.length
    next_agent := (computeRouting s4).1
    servicing_type :=
      match (computeRouting s4).2 with
      | some t => some t
      | none => s4.servicing_type }

/- ===== Underwriting agent (underwriting_agent.py) ===== -/

/-- Python `round` to the nearest integer, ties to even. -/
def pyRoundHalfEven (q : ℚ) : ℤ :=
  let f := ⌊q⌋
  let frac := q - f
  if frac < 1 / 2 then f
  else if 1 / 2 < frac then f + 1
  else if f % 2 = 0 then f else f + 1

/-- Python `round(x, 2)`. -/
def pyRound2 (q : ℚ) : ℚ :=
  (pyRoundHalfEven (q * 100) : ℚ) / 100

/-- Python `int(x)` on a rational: truncation toward zero. -/
def pyInt (q : ℚ) : ℤ :=
  if 0 ≤ q then ⌊q⌋ else -⌊-q⌋

/-- Splitting a digit list into groups of three from the front (the list is
fed in reversed). -/
def chunk3 : Nat → List Char → List (List Char)
  | 0, _ => []
  | _ + 1, [] => []
  | fuel + 1, l => l.take 3 :: chunk3 fuel (l.drop 3)

/-- Digit grouping of Python's `,` format on the absolute value. -/
def commaGroup (n : ℤ) : String :=
  let ds := (toString n.natAbs).data
  let parts := (chunk3 (ds.length + 1) ds.reverse).map fun c => String.mk c.reverse
  let body := pyIntercalate "," parts.reverse
  if n < 0 then "-" ++ body else body

/-- Python `f"{q:,.0f}"`: round to an integer, group digits by thousands. -/
def pyFormatComma0 (q : ℚ) : String :=
  commaGroup (pyRoundHalfEven q)

/-- Embedding of `calculate_risk_score`.  `state.get("loan_purpose", "")`
returns the stored `None` when the key holds null, so `.lower()` raises
`AttributeError` in that case. -/
def calculateRiskScore (s : State) : Except PyExn ℚ :=
  let score : ℚ := 60
  let score :=
    match s.years_operating with
    | some y => if y ≠ 0 then score + min ((y : ℚ) * 2) 15 else score
    | none => score
  let score :=
    match s.monthly_revenue with
    | some r =>
      if r ≠ 0 then
        if 50000 ≤ r then score + 10 else if 30000 ≤ r then score + 5 else score
      else score
    | none => score
  let score :=
    if s.photo_insights ≠ [] then
      let n : ℚ := s.photo_insights.length
      let avgC := (s.photo_insights.map (·.cleanliness_score)).sum / n
      let avgO := (s.photo_insights.map (·.organization_score)).sum / n
      score + ((avgC + avgO) / 2) * 1
    else score
  match s.loan_purpose with
  | none => .error (.attributeError "NoneType object has no attribute lower")
  | some p =>
    let pl := pyLower p
    let score :=
      if (["inventory", "stock", "supplies"]).any (pyContains pl ·) then score + 5 else score
    .ok (min score 100)

/-- Embedding of `_calculate_risk_tier`. -/
def calculateRiskTier (r : ℚ) : String :=
  if 80 ≤ r then "low" else if 60 ≤ r then "medium" else "high"

/-- Embedding of `_generate_risk_factors`.  Comparing the stored `None` of
`years_operating` or `monthly_revenue` against an int raises `TypeError`. -/
def generateRiskFactors (s : State) : Except PyExn (List String × List String) :=
  match s.years_operating with
  | none => .error (.typeError "comparison of NoneType and int")
  | some y =>
    let riskF : List String := if y < 1 then ["Less than 1 year in business"] else []
    let strengths : List String :=
      if 3 ≤ y then [toString y ++ " years of business experience"] else []
    match s.monthly_revenue with
    | none => .error (.typeError "comparison of NoneType and int")
    | some r =>
      let riskF := if r < 20000 then riskF ++ ["Low monthly revenue"] else riskF
      let strengths :=
        if 40000 ≤ r then
          strengths ++ ["Strong monthly revenue (" ++ pyFormatComma0 r ++ " pesos)"]
        else strengths
      let (riskF, strengths) :=
        if s.photo_insights ≠ [] then
          let n : ℚ := s.photo_insights.length
          let avgC := (s.photo_insights.map (·.cleanliness_score)).sum / n
          let avgO := (s.photo_insights.map (·.organization_score)).sum / n
          if 8 ≤ avgC ∧ 8 ≤ avgO then
            (riskF, strengths ++ ["Well-maintained and organized business space"])
          else if avgC < 6 ∨ avgO < 6 then
            (riskF ++ ["Business space needs improvement"], strengths)
          else (riskF, strengths)
        else (riskF, strengths)
      let riskF := if riskF = [] then ["Standard risk profile"] else riskF
      let strengths := if strengths = [] then ["Eligible for loan consideration"] else strengths
      .ok (riskF.take 3, strengths.take 3)

/-- Embedding of `generate_loan_offer`: the demo offer is a constant
(the risk score is consulted only by a `pass` branch). -/
def generateLoanOffer (_risk_score : ℚ) : LoanOffer :=
  let base_amount : ℚ := 5000
  let flat_interest_rate : ℚ := 11
  let total_repayment := base_amount * (1 + flat_interest_rate / 100)
  let installment_amount := total_repayment / 3
  { amount := base_amount
    term_days := 45
    installments := 3
    installment_amount := pyRound2 installment_amount
    total_repayment := pyRound2 total_repayment
    interest_rate_flat := flat_interest_rate
    terms_url := "https://lender.com.mx/terms/msme-loan-agreement" }

/-- Embedding of `UnderwritingAgent.process`: the state after the returned
partial update is applied (the database save is a fire-and-forget side effect
with no state write beyond the `_loan_saved` flag in the update). -/
def underwritingProcess (s : State) : Except PyExn State :=
  match calculateRiskScore s with
  | .error e => .error e
  | .ok rs =>
    match generateRiskFactors s with
    | .error e => .error e
    | .ok (rf, str) =>
      .ok { s with
        risk_score := some rs
        risk_tier := some (calculateRiskTier rs)
        key_risk_factors := rf
        key_strengths := str
        loan_offer := some (generateLoanOffer rs)
        loan_offered := true
        loan_saved := true
        next_agent := none }

/- ===== Coaching agent (coaching_agent.py) ===== -/

/-- Embedding of `CoachingAgent.process`.  Building the context formats
`monthly_revenue` with `:,.0f`; the stored `None` raises `TypeError` there.
Otherwise the update stores the generated advice and clears the signal.
Note the update writes `coaching_advice`, never `coaching_provided`. -/
def coachingProcess (advice : String) (s : State) : Except PyExn State :=
  match s.monthly_revenue with
  | none => .error (.typeError "unsupported format string passed to NoneType")
  | some _ => .ok { s with next_agent := none, coaching_advice := some advice }

/- ===== Servicing agent (servicing_agent.py) ===== -/

/-- External inputs of one `ServicingAgent.process` call: clock readings,
generated reference numbers, schedule due dates, and LLM replies. -/
structure ServicingOracle where
  nowIso : String := ""
  nowPlus1h : String := ""
  nowPlus2h : String := ""
  nowPlus24h : String := ""
  dispRef : String := ""
  payRef : String := ""
  dueDate : ℕ → String := fun _ => ""
  llmRecovery : String := ""
  llmImpact : String := ""

/-- Embedding of `process_disbursement`: the (status, info) part of the update. -/
def processDisbursement (o : ServicingOracle) (s : State) :
    Option String × Option DisbursementInfo :=
  match s.loan_offer with
  | none => (some "error", some .errorNoOffer)
  | some off =>
    (some "initiated",
     some (.info off.amount "pending" o.nowIso o.nowPlus2h
            (s.bank_account.getD "***1234") o.dispRef))

/-- Embedding of `generate_payment_schedule`: `none` when no offer exists
(the returned update then stores null).  Integer division by a zero
installment count is not modelled (every offer in the system has 3). -/
def generatePaymentSchedule (o : ServicingOracle) (s : State) : Option PaymentSchedule :=
  match s.loan_offer with
  | none => none
  | some off =>
    let days_between : ℚ := (off.term_days : ℚ) / (off.installments : ℚ)
    let schedule := (List.range off.installments.toNat).map fun (i : ℕ) =>
      { installment_number := (i : ℤ) + 1
        due_date := o.dueDate i
        amount := off.installment_amount
        status := "pending" : ScheduleEntry }
    some { total_installments := off.installments
           installment_amount := off.installment_amount
           total_amount := off.total_repayment
           schedule := schedule
           days_between_payments := pyInt days_between }

/-- Embedding of `process_repayment`: the (status, info) part of the update;
`method` is the possibly-null repayment method. -/
def processRepayment (o : ServicingOracle) (s : State) (method : Option String) :
    Option String × Option RepaymentInfo :=
  match s.loan_offer with
  | none => (some "error", some .errorNoOffer)
  | some off =>
    let amount := off.installment_amount
    let (bank, est, loc, instr) :
        Option String × Option String × Option String × Option String :=
      if method = some "existing_bank" then
        (some (s.bank_account.getD "***1234"), some o.nowPlus1h, none, none)
      else if method = some "new_account" then
        (some "pending_verification", some o.nowPlus24h, none, none)
      else if method = some "in_person" then
        (none, some "immediate", some "Visit any partner location",
         some "Bring valid ID and reference number")
      else (none, none, none, none)
    (some "processing",
     some (.info method amount "processing" o.nowIso o.payRef bank est loc instr))

/-- Embedding of `_detect_resolution_type`. -/
def detectResolutionType (response : String) : String :=
  let rl := pyLower response
  if pyContains rl "promise to pay" then "promise_to_pay"
  else if pyContains rl "payment plan" ∨ pyContains rl "installment plan" then "payment_plan"
  else if pyContains rl "restructure" ∨ pyContains rl "restructuring" then "restructuring"
  else "other"

/-- Embedding of `handle_recovery_conversation`: building the context reads
`loan_offer.get(...)`, which raises `AttributeError` on a null offer; the
result is (recovery_status, recovery_info, recovery_response). -/
def handleRecovery (o : ServicingOracle) (s : State) :
    Except PyExn (Option String × Option RecoveryInfo × Option String) :=
  match s.loan_offer with
  | none => .error (.attributeError "NoneType object has no attribute get")
  | some _ =>
    let response := o.llmRecovery
    let rl := pyLower response
    let pending := (["promise to pay", "payment plan", "agreed", "accepted"]).any (pyContains rl ·)
    let status := if pending then some "resolution_pending" else s.recovery_status
    .ok (status,
         some { status := status
                conversation_active := true
                last_interaction := o.nowIso
                resolution_type := if pending then some (detectResolutionType response) else none },
         some response)

/-- Embedding of `explain_repayment_impact`: the context again dereferences
a possibly-null `loan_offer`. -/
def explainImpact (o : ServicingOracle) (s : State) : Except PyExn String :=
  match s.loan_offer with
  | none => .error (.attributeError "NoneType object has no attribute get")
  | some _ => .ok o.llmImpact

/-- Latest message whose content is a plain string and whose type is human
(the reversed scan of `ServicingAgent.process`). -/
def lastUserMessage (messages : List Msg) : Option String :=
  messages.reverse.findSome? fun m =>
    match m.content, m.role with
    | .text c, .human => some c
    | _, _ => none

/-- The `result` dict accumulated by `ServicingAgent.process`: a key that is
present (`some v`) overwrites the state field with `v` (which may itself be
null, e.g. `payment_schedule` when no offer exists); an absent key (`none`)
leaves the field unchanged. -/
structure ServUpd where
  disbursement_status : Option (Option String) := none
  disbursement_info : Option (Option DisbursementInfo) := none
  payment_schedule : Option (Option PaymentSchedule) := none
  repayment_status : Option (Option String) := none
  repayment_info : Option (Option RepaymentInfo) := none
  repayment_impact_explanation : Option (Option String) := none
  recovery_status : Option (Option String) := none
  recovery_info : Option (Option RecoveryInfo) := none
  recovery_response : Option (Option String) := none
  deriving DecidableEq, Repr

/-- Application of the servicing result dict to the state; the agent always
adds `next_agent = None`. -/
def applyServUpd (u : ServUpd) (s : State) : State :=
  { s with
    disbursement_status := u.disbursement_status.getD s.disbursement_status
    disbursement_info := u.disbursement_info.getD s.disbursement_info
    payment_schedule := u.payment_schedule.getD s.payment_schedule
    repayment_status := u.repayment_status.getD s.repayment_status
    repayment_info := u.repayment_info.getD s.repayment_info
    repayment_impact_explanation :=
      u.repayment_impact_explanation.getD s.repayment_impact_explanation
    recovery_status := u.recovery_status.getD s.recovery_status
    recovery_info := u.recovery_info.getD s.recovery_info
    recovery_response := u.recovery_response.getD s.recovery_response
    next_agent := none }

/-- Disbursement-plus-schedule result shared by the `disbursement` and the
default branch of `ServicingAgent.process`. -/
def servDisburseUpd (o : ServicingOracle) (s : State) : ServUpd :=
  { disbursement_status := some (processDisbursement o s).1
    disbursement_info := some (processDisbursement o s).2
    payment_schedule := some (generatePaymentSchedule o s) }

/-- The dispatch of `ServicingAgent.process`: the branch taken by the stored
servicing type (a null or unknown type falls through to the general branch)
determines which keys the result dict carries. -/
def servicingCompute (o : ServicingOracle) (s : State) : Except PyExn ServUpd :=
  let lastUser := lastUserMessage s.messages
  if s.servicing_type = some "disbursement" then
    .ok (servDisburseUpd o s)
  else if s.servicing_type = some "repayment" then
    let method : Option String :=
      match lastUser with
      | some lm =>
        let ml := pyLower lm
        if pyContains ml "new account" ∨ pyContains ml "add account" then some "new_account"
        else if pyContains ml "in person" ∨ pyContains ml "in-person" ∨ pyContains ml "cash" then
          some "in_person"
        else if pyContains ml "existing" ∨ pyContains ml "current" then some "existing_bank"
        else s.repayment_method
      | none => s.repayment_method
    .ok { repayment_status := some (processRepayment o s method).1
          repayment_info := some (processRepayment o s method).2 }
  else if s.servicing_type = some "payment_schedule" then
    .ok { payment_schedule := some (generatePaymentSchedule o s) }
  else if s.servicing_type = some "repayment_impact" then
    match explainImpact o s with
    | .error e => .error e
    | .ok expl => .ok { repayment_impact_explanation := some (some expl) }
  else if s.servicing_type = some "recovery" then
    match handleRecovery o s with
    | .error e => .error e
    | .ok trip =>
      .ok { recovery_status := some trip.1, recovery_info := some trip.2.1
            recovery_response := some trip.2.2 }
  else
    -- general servicing
    if s.loan_accepted ∧ ¬ pyTruthyStr s.disbursement_status then
      .ok (servDisburseUpd o s)
    else
      match lastUser with
      | some lm =>
        let ml := pyLower lm
        if (["payment", "repay", "installment"]).any (pyContains ml ·) then
          let method : Option String :=
            if pyContains ml "new account" then some "new_account"
            else if pyContains ml "in person" ∨ pyContains ml "cash" then some "in_person"
            else some "existing_bank"
          .ok { repayment_status := some (processRepayment o s method).1
                repayment_info := some (processRepayment o s method).2 }
        else if (["schedule", "when", "due", "payment dates"]).any (pyContains ml ·) then
          .ok { payment_schedule := some (generatePaymentSchedule o s) }
        else if (["trouble", "difficulty", kwCantPay, "late", "missed"]).any (pyContains ml ·) then
          match handleRecovery o s with
          | .error e => .error e
          | .ok trip =>
            .ok { recovery_status := some trip.1, recovery_info := some trip.2.1
                  recovery_response := some trip.2.2 }
        else .ok {}
      | none => .ok {}

/-- Embedding of `ServicingAgent.process`: compute the result dict for the
dispatched branch and apply it to the state (clearing the signal). -/
def servicingProcess (o : ServicingOracle) (s : State) : Except PyExn State :=
  match servicingCompute o s with
  | .error e => .error e
  | .ok u => .ok (applyServUpd u s)

/- ===== Workflow graph executor (graph.py) ===== -/

/-- Node names of the compiled LangGraph workflow. -/
inductive Node
  | business_partner
  | underwriting
  | servicing
  | coaching
  deriving DecidableEq, Repr

/-- Embedding of `route_after_business_partner` and the conditional edge map:
an empty or unknown signal routes to END (`none`). -/
def routeAfterBP (s : State) : Option Node :=
  if s.next_agent = some "underwriting" then some .underwriting
  else if s.next_agent = some "servicing" then some .servicing
  else if s.next_agent = some "coaching" then some .coaching
  else none

/-- External inputs of one graph superstep. -/
structure StepOracle where
  primary : PrimaryOracle := {}
  coachAdvice : String := ""
  servicing : ServicingOracle := {}

/-- Outcome of a graph invocation: a final state, the recursion-limit error
LangGraph raises when the superstep budget is exhausted, or a Python
exception propagated out of a node. -/
inductive ExecResult
  | ok (s : State)
  | recursionError
  | pyError (e : PyExn)
  deriving DecidableEq, Repr

/-- Execution of one graph node: the primary node never raises; each
specialist may propagate a Python exception. -/
def execNode (orc : ℕ → StepOracle) (idx : ℕ) (node : Node) (s : State) : Except PyExn State :=
  match node with
  | .business_partner => .ok (primaryStep (orc idx).primary s)
  | .underwriting => underwritingProcess s
  | .servicing => servicingProcess (orc idx).servicing s
  | .coaching => coachingProcess (orc idx).coachAdvice s

/-- Edge taken after a node: the conditional edge after `business_partner`,
the fixed edge back to `business_partner` after every specialist. -/
def nextNode (node : Node) (s' : State) : Option Node :=
  match node with
  | .business_partner => routeAfterBP s'
  | _ => some .business_partner

/-- Embedding of the compiled graph's execution loop: run the current node,
follow its edge, and stop on END or after `fuel` supersteps (LangGraph's
`recursion_limit`, 25 by default in `graph.invoke`).  Also returns the list
of executed nodes. -/
def runExec (orc : ℕ → StepOracle) : ℕ → Node → ℕ → State → ExecResult × List Node
  | 0, _, _, _ => (.recursionError, [])
  | fuel + 1, node, idx, s =>
    match execNode orc idx node s with
    | .error e => (.pyError e, [node])
    | .ok s' =>
      match nextNode node s' with
      | none => (.ok s', [node])
      | some n =>
        ((runExec orc fuel n (idx + 1) s').1, node :: (runExec orc fuel n (idx + 1) s').2)

/-- Specialist nodes are every node other than the primary. -/
def specialistNode : Node → Bool
  | .business_partner => false
  | _ => true

/- ===== Personas (personas.py) ===== -/

/-- A demo persona: its phase, business data, loan context and checklist.
Loan-context keys absent from a persona's dict are `none` (a present null
value behaves identically under the null-guarded write).  The boolean keys
`loan_accepted`/`loan_offered` and the non-schema key `days_past_due` never
pass the `state.get(key) is None` guard on the states this function receives
(booleans are stored non-null there), so they carry no field here. -/
structure Persona where
  persona_id : String
  phase : String
  business_type : Option String
  location : Option String
  years_operating : Option ℤ
  num_employees : Option ℤ
  monthly_revenue : Option ℚ
  monthly_expenses : Option ℚ
  loan_purpose : Option String
  lc_loan_offer : Option LoanOffer
  lc_disbursement_status : Option String
  lc_recovery_status : Option String
  lc_payment_schedule : Option PaymentSchedule
  completed_tasks : List String
  deriving DecidableEq, Repr

/-- The standard demo loan offer shared by the seeded personas. -/
def personaDemoOffer : LoanOffer :=
  { amount := 5000
    term_days := 45
    installments := 3
    installment_amount := 1850
    total_repayment := 5550
    interest_rate_flat := 11
    terms_url := "https://lender.com.mx/terms/msme-loan-agreement" }

/-- Persona `pre_loan_tienda`. -/
def preLoanTienda : Persona :=
  { persona_id := "pre_loan_tienda"
    phase := "onboarding"
    business_type := some "corner shop / tiendita"
    location := some "Mexico City, CDMX"
    years_operating := some 3
    num_employees := some 1
    monthly_revenue := some 25000
    monthly_expenses := some 18000
    loan_purpose := some "Buy more inventory for the holiday season"
    lc_loan_offer := none
    lc_disbursement_status := none
    lc_recovery_status := none
    lc_payment_schedule := none
    completed_tasks := [] }

/-- Persona `active_loan_salon`. -/
def activeLoanSalon : Persona :=
  { persona_id := "active_loan_salon"
    phase := "post_disbursement"
    business_type := some "beauty salon"
    location := some "Guadalajara, Jalisco"
    years_operating := some 5
    num_employees := some 3
    monthly_revenue := some 45000
    monthly_expenses := some 30000
    loan_purpose := some "Equipment upgrade and renovation"
    lc_loan_offer := some personaDemoOffer
    lc_disbursement_status := some "completed"
    lc_recovery_status := none
    lc_payment_schedule := some
      { total_installments := 3
        installment_amount := 1850
        total_amount := 5550
        schedule :=
          [{ installment_number := 1, due_date := "2024-12-15", amount := 1850, status := "completed" },
           { installment_number := 2, due_date := "2024-12-30", amount := 1850, status := "pending" },
           { installment_number := 3, due_date := "2025-01-14", amount := 1850, status := "pending" }]
        days_between_payments := 15 }
    completed_tasks := requiredTasksList }

/-- Persona `past_due_food_cart`. -/
def pastDueFoodCart : Persona :=
  { persona_id := "past_due_food_cart"
    phase := "delinquent"
    business_type := some "street food cart"
    location := some "Monterrey, Nuevo León"
    years_operating := some 2
    num_employees := some 0
    monthly_revenue := some 20000
    monthly_expenses := some 15000
    loan_purpose := some "Buy new equipment and supplies"
    lc_loan_offer := some personaDemoOffer
    lc_disbursement_status := some "completed"
    lc_recovery_status := some "in_conversation"
    lc_payment_schedule := some
      { total_installments := 3
        installment_amount := 1850
        total_amount := 5550
        schedule :=
          [{ installment_number := 1, due_date := "2024-12-05", amount := 1850, status := "overdue" },
           { installment_number := 2, due_date := "2024-12-20", amount := 1850, status := "pending" },
           { installment_number := 3, due_date := "2025-01-04", amount := 1850, status := "pending" }]
        days_between_payments := 15 }
    completed_tasks := requiredTasksList }

/-- Persona `coaching_only_market` (its business data carries a null
`loan_purpose`, which the guarded write leaves as null). -/
def coachingOnlyMarket : Persona :=
  { persona_id := "coaching_only_market"
    phase := "post_disbursement"
    business_type := some "market stall (fruits/vegetables)"
    location := some "Puebla, Puebla"
    years_operating := some 4
    num_employees := some 1
    monthly_revenue := some 35000
    monthly_expenses := some 25000
    loan_purpose := none
    lc_loan_offer := none
    lc_disbursement_status := none
    lc_recovery_status := none
    lc_payment_schedule := none
    completed_tasks :=
      ["confirm_eligibility", "capture_business_profile", "capture_business_financials"] }

/-- Embedding of `get_persona` (`PERSONAS.get`). -/
def getPersona (pid : String) : Option Persona :=
  if pid = "pre_loan_tienda" then some preLoanTienda
  else if pid = "active_loan_salon" then some activeLoanSalon
  else if pid = "past_due_food_cart" then some pastDueFoodCart
  else if pid = "coaching_only_market" then some coachingOnlyMarket
  else none

/-- Null-guarded write of a persona value: `if state.get(key) is None`. -/
def setIfNone {α : Type} (cur v : Option α) : Option α :=
  match cur with
  | none => v
  | some _ => cur

/-- Embedding of `initialize_state_from_persona` (personas.py lines 218-253):
business data and loan context are written only onto null fields; `phase` is
set unconditionally; `required_tasks` is seeded only when empty;
`completed_tasks` is replaced by the persona's copy. -/
def initialize_state_from_persona (s : State) (p : Persona) : State :=
  { s with
    business_type := setIfNone s.business_type p.business_type
    location := setIfNone s.location p.location
    years_operating := setIfNone s.years_operating p.years_operating
    num_employees := setIfNone s.num_employees p.num_employees
    monthly_revenue := setIfNone s.monthly_revenue p.monthly_revenue
    monthly_expenses := setIfNone s.monthly_expenses p.monthly_expenses
    loan_purpose := setIfNone s.loan_purpose p.loan_purpose
    loan_offer := setIfNone s.loan_offer p.lc_loan_offer
    disbursement_status := setIfNone s.disbursement_status p.lc_disbursement_status
    recovery_status := setIfNone s.recovery_status p.lc_recovery_status
    payment_schedule := setIfNone s.payment_schedule p.lc_payment_schedule
    phase := p.phase
    required_tasks := if s.required_tasks = [] then requiredTasksList else s.required_tasks
    completed_tasks := p.completed_tasks
    persona_id := some p.persona_id }

/- ===== Chat endpoint (main.py) ===== -/

/-- A message of the inbound request body. -/
structure ReqMsg where
  role : String
  content : MsgContent
  deriving DecidableEq, Repr

/-- The inbound chat request (`ChatRequest`). -/
structure ChatRequest where
  messages : List ReqMsg
  session_id : Option String := none
  user_id : Option String := some "demo-user"
  system : Option String := none
  persona_id : Option String := none
  deriving DecidableEq, Repr

/-- External inputs of one chat turn: the clock, the database conversation id,
the checkpointed state (when one exists), and the per-superstep oracles. -/
structure ChatOracle where
  now : ℕ := 0
  dbConversationId : Option String := none
  checkpoint : Option State := none
  step : ℕ → StepOracle := fun _ => {}

/-- Python `x or default` on an optional string. -/
def pyOr (v : Option String) (d : String) : String :=
  match v with
  | some s => if s ≠ "" then s else d
  | none => d

/-- Conversion of the request messages to LangChain messages (lines 152-159):
only user messages are added. -/
def langchainMessages (req : ChatRequest) : List Msg :=
  (req.messages.filter fun m => m.role = "user").map fun m => ⟨.human, m.content⟩

/-- Python `l[-1:]`. -/
def lastSlice {α : Type} (l : List α) : List α :=
  match l.getLast? with
  | some x => [x]
  | none => []

/-- Turn merge for a continuing session (main.py lines 186-213): start from the
full existing state, append only the latest user message (the re-sent history
is deduplicated by the `add_messages` reducer's message ids), refresh the
conversation id, and take the request's system override only when truthy.
Lines 200-212 re-set every business field to its existing value, which is the
identity on top of the `**existing_state` spread. -/
def mergedState (es : State) (conversation_id : Option String) (req : ChatRequest) : State :=
  { es with
    messages := es.messages ++ lastSlice (langchainMessages req)
    conversation_id := conversation_id
    system_prompt :=
      match req.system with
      | some sys => if sys ≠ "" then some sys else es.system_prompt
      | none => es.system_prompt }

/-- Reading a Python local: `none` models a not-yet-assigned local, whose read
raises `UnboundLocalError`, a subclass of `NameError`. -/
def readLocal {α : Type} (v : Option α) (name : String) : Except PyExn α :=
  match v with
  | some x => .ok x
  | none => .error (.nameError name)

/-- The `existing_state` local as it stands at main.py line 120: the function's
only assignments to it are at lines 166 and 171, later in the body, so at
line 120 it is still unbound. -/
def existingStateLocalAt120 : Option (Option State) := none

/-- The body of the `try` block (main.py lines 140-329), from the database
lookup through the turn merge, persona initialization and graph invocation;
exceptions map to the 500 response of the `except` handler. -/
def chatBody (o : ChatOracle) (req : ChatRequest) (session_id user_id : String) :
    Except PyExn State := do
  let conversation_id ←
    match o.dbConversationId with
    | some cid =>
      if cid ≠ "" then (Except.ok (some cid) : Except PyExn (Option String))
      else .error (.httpException 500)
    | none => .error (.httpException 500)
  let lc := langchainMessages req
  let initial_state :=
    match o.checkpoint with
    | some es => mergedState es conversation_id req
    | none =>
      let fresh := freshState session_id user_id conversation_id req.system (lastSlice lc)
      match req.persona_id with
      | some pid =>
        if pid ≠ "" then
          match getPersona pid with
          | some p => initialize_state_from_persona fresh p
          | none => fresh
        else fresh
      | none => fresh
  match runExec o.step 25 .business_partner 0 initial_state with
  | (.ok s, _) => .ok s
  | (.recursionError, _) => .error (.httpException 500)
  | (.pyError _, _) => .error (.httpException 500)

/-- Embedding of the `chat` endpoint (main.py lines 98-336), up to the final
session state.  Lines 112-130 build the trace metadata; line 120 tests
`if existing_state:` — a read of the local `existing_state` whose first
assignment is line 166 — before the `try` block is entered. -/
def chat (o : ChatOracle) (req : ChatRequest) : Except PyExn State := do
  let session_id := pyOr req.session_id ("session-" ++ toString o.now)
  let user_id := pyOr req.user_id "demo-user"
  let _existing_state ← readLocal existingStateLocalAt120 "existing_state"
  chatBody o req session_id user_id

/- ===== States, trajectories and invariants used by the theorems ===== -/

/-- Failing input for C1: a state in which the loan is accepted and coaching
advice has already been provided in this session. -/
def advicePS : State :=
  { freshState "s" "u" (some "c") none with
      loan_accepted := true
      loan_offered := true
      coaching_advice := some "Advice already provided this session" }

/-- Fresh state used by the persona counterexample. -/
def personaFreshS : State := freshState "s" "u" (some "c") none

/-- State with non-null business data used by the persona witness. -/
def personaWitnessS : State :=
  { freshState "s" "u" (some "c") none with
      business_type := some "bakery"
      location := some "Condesa" }

/-- Concrete state on which the underwriting specialist runs without error. -/
def uwS : State :=
  { freshState "s" "u" (some "c") none with
      years_operating := some 0
      monthly_revenue := some 0
      loan_purpose := some "general use" }

/-- The state produced by the underwriting specialist on `uwS`. -/
def uwRes : State :=
  { uwS with
      risk_score := some 60
      risk_tier := some "medium"
      key_risk_factors := ["Less than 1 year in business", "Low monthly revenue"]
      key_strengths := ["Eligible for loan consideration"]
      loan_offer := some (generateLoanOffer 60)
      loan_offered := true
      loan_saved := true
      next_agent := none }

/-- A session state right after loan acceptance (offer made, no coaching yet),
as produced by the acceptance turn. -/
def loopTurnState : State :=
  { freshState "s" "u" (some "c") none [⟨.human, .text "ok"⟩] with
      loan_accepted := true
      loan_offered := true
      monthly_revenue := some 25000 }

/-- Allowed edges of the phase state machine, reflexive steps included. -/
def allowedPhaseEdge (p q : String) : Prop :=
  q = p ∨ (p = "onboarding" ∧ q = "offer")
    ∨ ((p = "onboarding" ∨ p = "offer") ∧ q = "post_disbursement")
    ∨ (p = "post_disbursement" ∧ q = "delinquent")

/-- Phase trajectory over a sequence of turns: each turn supplies the
non-phase fields of the state (`envs`), the phase is threaded through, and
both the intermediate phase after the post-disbursement step and the
end-of-turn phase are recorded. -/
def phaseSeq : List State → String → String × List String
  | [], p => (p, [])
  | e :: rest, p =>
    let s : State := { e with phase := p }
    let mid := (phaseStepPost (phaseStepOffer s)).phase
    let q := (phaseUpdate s).phase
    ((phaseSeq rest q).1, mid :: q :: (phaseSeq rest q).2)

/-- Turn environment that accepts and completes disbursement. -/
def phaseEnv1 : State :=
  { freshState "e" "u" none none with
      loan_accepted := true
      disbursement_status := some "completed" }

/-- Turn environment with an open recovery status. -/
def phaseEnv2 : State :=
  { freshState "e" "u" none none with
      recovery_status := some "in_conversation" }

/-- The seven scalar business fields of a state, as one tuple. -/
def bizFields (s : State) :
    Option String × Option String × Option ℤ × Option ℤ × Option ℚ × Option ℚ × Option String :=
  (s.business_type, s.location, s.years_operating, s.num_employees,
   s.monthly_revenue, s.monthly_expenses, s.loan_purpose)

/-- Non-null carry-over between two states: every scalar business field that
is non-null in the first state is non-null in the second. -/
def bizCarry (s s' : State) : Prop :=
  (s.business_type.isSome = true → s'.business_type.isSome = true) ∧
  (s.location.isSome = true → s'.location.isSome = true) ∧
  (s.years_operating.isSome = true → s'.years_operating.isSome = true) ∧
  (s.num_employees.isSome = true → s'.num_employees.isSome = true) ∧
  (s.monthly_revenue.isSome = true → s'.monthly_revenue.isSome = true) ∧
  (s.monthly_expenses.isSome = true → s'.monthly_expenses.isSome = true) ∧
  (s.loan_purpose.isSome = true → s'.loan_purpose.isSome = true)

/-- Checklist well-formedness: no duplicates, contained in the required
tasks, and the required list is the fixed one from main.py. -/
def tasksInv (s : State) : Prop :=
  s.completed_tasks.Nodup ∧ s.completed_tasks ⊆ s.required_tasks ∧
  s.required_tasks = requiredTasksList

/-- Inputs of one turn of an ongoing session: its oracles, the database
conversation id, and the request. -/
structure TurnIn where
  orc : ℕ → StepOracle
  cid : Option String
  req : ChatRequest

/-- One turn of an ongoing session: merge the previous state with the new
request and run the graph; `none` when the turn fails (recursion limit or a
propagated exception). -/
def turnStep (t : TurnIn) (s : State) : Option State :=
  match (runExec t.orc 25 .business_partner 0 (mergedState s t.cid t.req)).1 with
  | .ok s' => some s'
  | _ => none

/-- A sequence of turns for a fixed session, each with its own oracles and
request, starting from an existing state; a failed turn aborts the rest. -/
def runTurns (l : List TurnIn) (s : State) : Option State :=
  l.foldl (fun acc t => acc.bind (turnStep t)) (some s)

/-- State with a captured business type, used by the field-retention witness. -/
def retainS : State :=
  { freshState "s" "u" (some "c") none with business_type := some "bakery" }

/- ===== Theorems ===== -/

/-- C3: every inbound chat request, with or without existing session state,
fails with a NameError (UnboundLocalError) raised while the trace metadata is
built at main.py line 120, because the local `existing_state` is read before
its first assignment at line 166; the turn merge, persona initialization and
graph invocation in `chatBody` are never reached. -/
theorem chat_raises_name_error (o : ChatOracle) (req : ChatRequest) :
    chat o req = .error (.nameError "existing_state") := rfl

/-- C10 (counterexample): the claim additionally asserts that the anomaly is
recorded, but on the unparseable analysis text `"Cleanliness: unclear"` the
parser substitutes the default score 7.5 and its anomaly log — the source's
handlers are bare `except: pass` — stays empty: nothing records the anomaly. -/
theorem parse_analysis_no_anomaly_recorded :
    (parseAnalysis "Cleanliness: unclear" 0).cleanliness_score = 7.5 ∧
    parseAnalysisAnomalyLog "Cleanliness: unclear" = [] :=
  ⟨rfl, rfl⟩

/-- C10 (amended): parsing any analysis text returns a well-formed
`PhotoInsight` without raising; a field that cannot be parsed keeps its
documented default (cleanliness 7.5, organization 7.5, stock level "medium",
non-empty default insights and coaching tips) and processing continues —
silently, with no anomaly recorded.  The empty text yields all defaults, and
every text yields the photo index and non-empty insight/tip lists. -/
theorem parse_analysis_defaults :
    (∀ idx, parseAnalysis "" idx =
      { photo_index := idx
        cleanliness_score := 7.5
        organization_score := 7.5
        stock_level := "medium"
        business_layout_type := "cannot_tell"
        evidence_flags := []
        authenticity_flag := "unclear"
        duplicate_flag := "new_angle_or_scene"
        photo_note := none
        insights := ["Photo analyzed successfully"]
        coaching_tips := ["Continue maintaining your business well"] }) ∧
    (∀ text idx, (parseAnalysis text idx).photo_index = idx ∧
      (parseAnalysis text idx).insights ≠ [] ∧
      (parseAnalysis text idx).coaching_tips ≠ []) := by
  constructor
  · intro idx
    rfl
  · intro text idx
    refine ⟨rfl, ?_, ?_⟩
    · by_cases h : (((pySplitOn (pyTrim text) "\n").foldl parseLine {}).observations) = [] <;>
        simp [parseAnalysis, h]
    · by_cases h : (((pySplitOn (pyTrim text) "\n").foldl parseLine {}).coaching_tips) = [] <;>
        simp [parseAnalysis, h]

/-- C4: the routing signal is `underwriting` exactly when the three
preconditions hold: every required task is completed, at least one photo
insight exists, and no offer has been generated yet. -/
theorem underwriting_gate_iff (s : State) :
    ((computeRouting s).1 = some "underwriting" ↔ shouldCallUnderwriting s = true) ∧
    (shouldCallUnderwriting s = true ↔
      ((∀ t ∈ s.required_tasks, t ∈ s.completed_tasks) ∧
        s.photo_insights ≠ [] ∧ s.loan_offered = false)) := by
  have hsc : shouldCallUnderwriting s = true ↔
      ((∀ t ∈ s.required_tasks, t ∈ s.completed_tasks) ∧
        s.photo_insights ≠ [] ∧ s.loan_offered = false) := by
    simp only [shouldCallUnderwriting, checkAllTasksComplete, decide_eq_true_eq,
      List.all_eq_true, Bool.not_eq_true, List.length_pos,
      Bool.not_eq_true']
  refine ⟨?_, hsc⟩
  by_cases h : shouldCallUnderwriting s = true
  · simp [computeRouting, h]
  · have hb : shouldCallUnderwriting s = false := by simpa using h
    simp only [computeRouting, hb, Bool.false_eq_true, if_false]
    constructor
    · intro hroute
      split_ifs at hroute <;> simp_all
    · intro htrue
      exact htrue.elim

/-- C1 (code bug): on a state whose coaching advice is already present the
routing block still signals `coaching`, because it guards on the
`coaching_provided` key, which no code anywhere writes (the coaching agent
stores `coaching_advice` instead), so the advice signal fires on every turn
after acceptance. -/
theorem routing_code_bug_advice_resignalled :
    advicePS.coaching_advice.isSome = true ∧
    advicePS.coaching_provided = none ∧
    (computeRouting advicePS).1 = some "coaching" := by
  refine ⟨rfl, rfl, ?_⟩
  decide

/-- C9 (counterexample): on a brand-new state the `phase` field already holds
the non-null value "onboarding", yet applying the `active_loan_salon` persona
overwrites it with the persona's demo default "post_disbursement"
(`state["phase"] = persona.phase` is unguarded). -/
theorem persona_overwrites_phase :
    personaFreshS.phase = "onboarding" ∧
    (initialize_state_from_persona personaFreshS activeLoanSalon).phase = "post_disbursement" := by
  exact ⟨rfl, rfl⟩

/-- C9 (amended): persona initialization writes business-data and loan-context
values only onto fields that are still null — a non-null field is kept — but
`phase` is set to the persona's phase unconditionally, `completed_tasks` is
replaced by the persona's list unconditionally, and `required_tasks` is
seeded only when empty. -/
theorem persona_null_guard_amended (s : State) (p : Persona) :
    (s.business_type ≠ none → (initialize_state_from_persona s p).business_type = s.business_type) ∧
    (s.location ≠ none → (initialize_state_from_persona s p).location = s.location) ∧
    (s.years_operating ≠ none →
      (initialize_state_from_persona s p).years_operating = s.years_operating) ∧
    (s.num_employees ≠ none →
      (initialize_state_from_persona s p).num_employees = s.num_employees) ∧
    (s.monthly_revenue ≠ none →
      (initialize_state_from_persona s p).monthly_revenue = s.monthly_revenue) ∧
    (s.monthly_expenses ≠ none →
      (initialize_state_from_persona s p).monthly_expenses = s.monthly_expenses) ∧
    (s.loan_purpose ≠ none → (initialize_state_from_persona s p).loan_purpose = s.loan_purpose) ∧
    (s.loan_offer ≠ none → (initialize_state_from_persona s p).loan_offer = s.loan_offer) ∧
    (s.disbursement_status ≠ none →
      (initialize_state_from_persona s p).disbursement_status = s.disbursement_status) ∧
    (s.recovery_status ≠ none →
      (initialize_state_from_persona s p).recovery_status = s.recovery_status) ∧
    (s.payment_schedule ≠ none →
      (initialize_state_from_persona s p).payment_schedule = s.payment_schedule) ∧
    (s.business_type = none → (initialize_state_from_persona s p).business_type = p.business_type) ∧
    (initialize_state_from_persona s p).phase = p.phase ∧
    (initialize_state_from_persona s p).completed_tasks = p.completed_tasks ∧
    (s.required_tasks ≠ [] → (initialize_state_from_persona s p).required_tasks = s.required_tasks) := by
  unfold initialize_state_from_persona setIfNone
  refine ⟨?_, ?_, ?_, ?_, ?_, ?_, ?_, ?_, ?_, ?_, ?_, ?_, rfl, rfl, ?_⟩ <;>
    intro h <;>
    simp_all <;>
    first
      | (cases hx : s.business_type <;> simp_all)
      | (cases hx : s.location <;> simp_all)
      | (cases hx : s.years_operating <;> simp_all)
      | (cases hx : s.num_employees <;> simp_all)
      | (cases hx : s.monthly_revenue <;> simp_all)
      | (cases hx : s.monthly_expenses <;> simp_all)
      | (cases hx : s.loan_purpose <;> simp_all)
      | (cases hx : s.loan_offer <;> simp_all)
      | (cases hx : s.disbursement_status <;> simp_all)
      | (cases hx : s.recovery_status <;> simp_all)
      | (cases hx : s.payment_schedule <;> simp_all)
      | (cases hx : s.required_tasks <;> simp_all)

/-- C5: the underwriting specialist's partial update sets `loan_offered`,
which falsifies its own routing precondition — a second invocation is
prevented by the guard — and `generate_loan_offer` is a constant, so two
invocations can never produce two distinct offers. -/
theorem offer_idempotent :
    (∀ s s', underwritingProcess s = .ok s' →
      s'.loan_offered = true ∧ s'.loan_offer.isSome = true ∧
      shouldCallUnderwriting s' = false ∧ (computeRouting s').1 ≠ some "underwriting") ∧
    (∀ r₁ r₂ : ℚ, generateLoanOffer r₁ = generateLoanOffer r₂) := by
  have hguard : ∀ t : State, t.loan_offered = true → shouldCallUnderwriting t = false := by
    intro t ht
    simp [shouldCallUnderwriting, ht]
  have hroute : ∀ t : State, shouldCallUnderwriting t = false →
      (computeRouting t).1 ≠ some "underwriting" := by
    intro t ht
    simp only [computeRouting, ht, Bool.false_eq_true, if_false]
    split_ifs <;> simp
  constructor
  · intro s s' h
    unfold underwritingProcess at h
    cases h1 : calculateRiskScore s with
    | error e => rw [h1] at h; exact Except.noConfusion h
    | ok rs =>
      rw [h1] at h
      cases h2 : generateRiskFactors s with
      | error e => rw [h2] at h; exact Except.noConfusion h
      | ok p =>
        rw [h2] at h
        cases p with
        | mk rf str =>
          rw [Except.ok.injEq] at h
          subst h
          exact ⟨rfl, rfl, hguard _ rfl, hroute _ (hguard _ rfl)⟩
  · intro r₁ r₂
    rfl

/-- Witness for the offer-idempotence theorem at a concrete state: after one
underwriting invocation the guard is false and the offer flag is set. -/
theorem offer_idempotent_witness :
    underwritingProcess uwS = .ok uwRes ∧
    uwRes.loan_offered = true ∧ shouldCallUnderwriting uwRes = false :=
  ⟨rfl,
   (offer_idempotent.1 uwS uwRes rfl).1,
   (offer_idempotent.1 uwS uwRes rfl).2.2.1⟩

/- ===== Executor lemmas (C2) ===== -/

set_option maxHeartbeats 3200000 in
/-- C2 (counterexample): with the loan accepted, one single turn invokes the
coaching specialist twelve times — not at most once — because the routing
guard tests the never-written `coaching_provided` key while coaching's update
writes `coaching_advice`; the turn ends in LangGraph's recursion-limit error
(default limit 25), not with an empty signal. -/
theorem executor_cap_counterexample :
    (runExec (fun _ => {}) 25 .business_partner 0 loopTurnState).2.count .coaching = 12 ∧
    (runExec (fun _ => {}) 25 .business_partner 0 loopTurnState).1 = .recursionError :=
  ⟨rfl, rfl⟩

/-- Structure of every executor run: the node log has at most `fuel` entries,
its head is the entry node (when non-empty), and specialist invocations are
always separated by a primary invocation. -/
theorem runExec_props (orc : ℕ → StepOracle) :
    ∀ (fuel : ℕ) (node : Node) (idx : ℕ) (s : State),
      (runExec orc fuel node idx s).2.length ≤ fuel ∧
      ((runExec orc fuel node idx s).2 = [] ∨
        ∃ t, (runExec orc fuel node idx s).2 = node :: t) ∧
      (runExec orc fuel node idx s).2.Chain'
        (fun a b => specialistNode a = false ∨ specialistNode b = false) := by
  intro fuel
  induction fuel with
  | zero =>
    intro node idx s
    exact ⟨Nat.le_refl 0, Or.inl rfl, List.chain'_nil⟩
  | succ f ih =>
    intro node idx s
    simp only [runExec]
    cases hx : execNode orc idx node s with
    | error e =>
      dsimp only
      exact ⟨by simp, Or.inr ⟨[], rfl⟩, List.chain'_singleton _⟩
    | ok s' =>
      dsimp only
      cases hn : nextNode node s' with
      | none => exact ⟨by simp, Or.inr ⟨[], rfl⟩, List.chain'_singleton _⟩
      | some n =>
        dsimp only
        obtain ⟨hlen, hshape, hchain⟩ := ih n (idx + 1) s'
        refine ⟨by simpa using Nat.succ_le_succ hlen, Or.inr ⟨_, rfl⟩, ?_⟩
        rw [List.chain'_cons']
        refine ⟨?_, hchain⟩
        intro b hb
        cases hnode : specialistNode node with
        | false => exact Or.inl rfl
        | true =>
          -- after a specialist the next node is the primary
          have hbp : n = .business_partner := by
            cases node <;> simp_all [nextNode, specialistNode]
          rcases hshape with hnil | ⟨t, ht⟩
          · rw [hnil] at hb
            simp at hb
          · rw [ht] at hb
            simp at hb
            subst hb
            subst hbp
            exact Or.inr rfl

/-- C2 (amended): the executor loop always stops — with the empty signal, a
propagated exception, or the recursion-limit error once the superstep budget
(LangGraph's `recursion_limit`, not a 1-invocation cap) is exhausted; between
any two specialist invocations the primary specialist runs (the topology's
specialist-to-primary edges), and the number of node invocations in a turn is
bounded by the budget, not by one specialist per turn. -/
theorem executor_bounded_alternation (orc : ℕ → StepOracle) (node : Node)
    (fuel idx : ℕ) (s : State) :
    (runExec orc fuel node idx s).2.length ≤ fuel ∧
    (runExec orc fuel node idx s).2.Chain'
      (fun a b => specialistNode a = false ∨ specialistNode b = false) :=
  ⟨(runExec_props orc fuel node idx s).1, (runExec_props orc fuel node idx s).2.2⟩

/- ===== Phase machine lemmas (C6) ===== -/

/-- Entering `delinquent` requires the phase just before the delinquency check
to be `post_disbursement` (or the state was already delinquent). -/
theorem phase_delinquent_entry (s : State) (h : (phaseUpdate s).phase = "delinquent") :
    s.phase = "delinquent" ∨ (phaseStepPost (phaseStepOffer s)).phase = "post_disbursement" := by
  unfold phaseUpdate phaseStepDelinquent at h
  by_cases hc : (recoveryOpen (phaseStepPost (phaseStepOffer s)) = true ∧
      (phaseStepPost (phaseStepOffer s)).phase = "post_disbursement")
  · exact Or.inr hc.2
  · rw [if_neg hc] at h
    left
    revert h
    unfold phaseStepPost phaseStepOffer
    split_ifs <;> intro h <;> simp_all

/-- A trajectory that starts outside `delinquent` and ends in `delinquent`
passes through `post_disbursement`. -/
theorem phaseSeq_delinquent_mem :
    ∀ (envs : List State) (p : String), p ≠ "delinquent" →
      (phaseSeq envs p).1 = "delinquent" → "post_disbursement" ∈ (phaseSeq envs p).2 := by
  intro envs
  induction envs with
  | nil =>
    intro p hp h
    exact absurd h hp
  | cons e rest ih =>
    intro p hp h
    simp only [phaseSeq] at h ⊢
    by_cases hqd : (phaseUpdate { e with phase := p }).phase = "delinquent"
    · rcases phase_delinquent_entry { e with phase := p } hqd with hl | hr
      · exact absurd hl hp
      · rw [hr]
        exact List.mem_cons_self _ _
    · exact List.mem_cons_of_mem _ (List.mem_cons_of_mem _ (ih _ hqd h))

/-- C6: every phase assignment of the phase-update block follows an allowed
edge of `onboarding → offer → post_disbursement → delinquent` (with
`onboarding/offer → post_disbursement` on accepted-and-disbursed states);
`delinquent` is entered only with the phase at `post_disbursement`; and no
turn sequence reaches `delinquent` from `onboarding` without the trajectory
passing through `post_disbursement`. -/
theorem phase_machine_edges :
    (∀ s : State,
      allowedPhaseEdge s.phase (phaseStepOffer s).phase ∧
      allowedPhaseEdge (phaseStepOffer s).phase (phaseStepPost (phaseStepOffer s)).phase ∧
      allowedPhaseEdge (phaseStepPost (phaseStepOffer s)).phase (phaseUpdate s).phase) ∧
    (∀ s : State, (phaseUpdate s).phase = "delinquent" →
      s.phase = "delinquent" ∨ (phaseStepPost (phaseStepOffer s)).phase = "post_disbursement") ∧
    (∀ envs : List State, (phaseSeq envs "onboarding").1 = "delinquent" →
      "post_disbursement" ∈ (phaseSeq envs "onboarding").2) := by
  refine ⟨?_, phase_delinquent_entry, ?_⟩
  · intro s
    refine ⟨?_, ?_, ?_⟩
    · unfold phaseStepOffer
      split_ifs with h
      · exact Or.inr (Or.inl ⟨h.2, rfl⟩)
      · exact Or.inl rfl
    · unfold phaseStepPost
      split_ifs with h
      · exact Or.inr (Or.inr (Or.inl ⟨h.2.2, rfl⟩))
      · exact Or.inl rfl
    · unfold phaseUpdate phaseStepDelinquent
      split_ifs with h
      · exact Or.inr (Or.inr (Or.inr ⟨h.2, rfl⟩))
      · exact Or.inl rfl
  · intro envs h
    exact phaseSeq_delinquent_mem envs "onboarding" (by decide) h

/-- Witness for the phase-machine theorem on a concrete two-turn trajectory
reaching `delinquent` through `post_disbursement`. -/
theorem phase_machine_edges_witness :
    (phaseSeq [phaseEnv1, phaseEnv2] "onboarding").1 = "delinquent" ∧
    "post_disbursement" ∈ (phaseSeq [phaseEnv1, phaseEnv2] "onboarding").2 :=
  ⟨by decide, phase_machine_edges.2.2 [phaseEnv1, phaseEnv2] (by decide)⟩

/- ===== Checklist and field-retention lemmas (C7, C8) ===== -/

/-- Marking a task never changes the required list. -/
theorem mark_required (s : State) (t : String) :
    (markTaskComplete s t).required_tasks = s.required_tasks := by
  unfold markTaskComplete
  split_ifs <;> rfl

/-- Marking a task never changes the business fields. -/
theorem mark_biz (s : State) (t : String) :
    bizFields (markTaskComplete s t) = bizFields s := by
  unfold markTaskComplete
  split_ifs <;> rfl

/-- The old checklist is a prefix of the checklist after a mark. -/
theorem mark_extends (s : State) (t : String) :
    s.completed_tasks <+: (markTaskComplete s t).completed_tasks := by
  unfold markTaskComplete
  split_ifs
  · exact List.prefix_refl _
  · exact List.prefix_append _ _

/-- Marking rewrites the checklist as an append. -/
theorem mark_eq (s : State) (t : String) :
    (markTaskComplete s t).completed_tasks =
      s.completed_tasks ++ (if t ∈ s.completed_tasks then [] else [t]) := by
  unfold markTaskComplete
  split_ifs <;> simp

/-- Marking preserves freedom from duplicates. -/
theorem mark_nodup (s : State) (t : String) (h : s.completed_tasks.Nodup) :
    (markTaskComplete s t).completed_tasks.Nodup := by
  unfold markTaskComplete
  split_ifs with hm
  · exact h
  · simp [List.nodup_append, h, hm]

/-- Marking a required task preserves containment in a list holding it. -/
theorem mark_subset (s : State) (t : String) (R : List String)
    (hs : s.completed_tasks ⊆ R) (ht : t ∈ R) :
    (markTaskComplete s t).completed_tasks ⊆ R := by
  unfold markTaskComplete
  split_ifs with hm
  · exact hs
  · intro x hx
    rcases List.mem_append.mp hx with h1 | h2
    · exact hs h1
    · rw [List.mem_singleton] at h2
      subst h2
      exact ht

/-- Marking a task of the fixed required list preserves the checklist
invariant. -/
theorem mark_inv (s : State) (t : String) (ht : t ∈ requiredTasksList)
    (h : tasksInv s) : tasksInv (markTaskComplete s t) := by
  obtain ⟨h1, h2, h3⟩ := h
  refine ⟨mark_nodup s t h1, ?_, by rw [mark_required, h3]⟩
  rw [mark_required, h3]
  exact mark_subset s t requiredTasksList (h3 ▸ h2) ht

/-- An extracted value never turns a non-null field null. -/
theorem updField_isSome {α : Type} (n c : Option α) (h : c.isSome = true) :
    (updField n c).isSome = true := by
  cases n
  · exact h
  · rfl

/-- Setting the acceptance flag leaves the business fields unchanged. -/
theorem bizFields_accept (x : State) :
    bizFields { x with loan_accepted := true } = bizFields x := rfl

/-- The extraction step: checklist grows, the invariant is preserved, and the
business fields become the extracted overrides of the old values. -/
theorem applyExtraction_facts (e : Extracted) (s : State) :
    s.completed_tasks <+: (applyExtraction e s).completed_tasks ∧
    (tasksInv s → tasksInv (applyExtraction e s)) ∧
    bizFields (applyExtraction e s) =
      (updField e.business_type s.business_type, updField e.location s.location,
       updField e.years_operating s.years_operating, updField e.num_employees s.num_employees,
       updField e.monthly_revenue s.monthly_revenue, updField e.monthly_expenses s.monthly_expenses,
       updField e.loan_purpose s.loan_purpose) := by
  unfold applyExtraction
  dsimp only
  split_ifs <;>
    refine ⟨?_, fun h => ?_, ?_⟩ <;>
    first
      | (simp only [mark_eq, List.append_assoc]
         first
           | exact List.prefix_append _ _
           | exact List.prefix_refl _)
      | exact List.prefix_refl _
      | exact mark_inv _ _ (by decide) (mark_inv _ _ (by decide) h)
      | exact mark_inv _ _ (by decide) h
      | exact h
      | (simp only [mark_biz]; rfl)
      | exact (bizFields_accept _).trans (mark_biz _ _)
      | exact bizFields_accept _
      | rfl

/-- Extraction only strengthens the business fields. -/
theorem applyExtraction_biz (e : Extracted) (s : State) :
    bizCarry s (applyExtraction e s) := by
  have h := (applyExtraction_facts e s).2.2
  rw [bizFields, Prod.mk.injEq, Prod.mk.injEq, Prod.mk.injEq, Prod.mk.injEq,
    Prod.mk.injEq, Prod.mk.injEq] at h
  obtain ⟨h1, h2, h3, h4, h5, h6, h7⟩ := h
  exact ⟨fun hx => h1 ▸ updField_isSome _ _ hx, fun hx => h2 ▸ updField_isSome _ _ hx,
    fun hx => h3 ▸ updField_isSome _ _ hx, fun hx => h4 ▸ updField_isSome _ _ hx,
    fun hx => h5 ▸ updField_isSome _ _ hx, fun hx => h6 ▸ updField_isSome _ _ hx,
    fun hx => h7 ▸ updField_isSome _ _ hx⟩

/-- The photo step: checklist grows, the invariant is preserved, and the
business fields are unchanged. -/
theorem applyPhotos_facts (a : ℕ → String) (s : State) :
    s.completed_tasks <+: (applyPhotos a s).completed_tasks ∧
    (tasksInv s → tasksInv (applyPhotos a s)) ∧
    bizFields (applyPhotos a s) = bizFields s := by
  unfold applyPhotos
  dsimp only
  split_ifs <;>
    refine ⟨?_, fun h => ?_, ?_⟩ <;>
    first
      | (simp only [mark_eq, List.append_assoc]
         first
           | exact List.prefix_append _ _
           | exact List.prefix_refl _)
      | exact List.prefix_refl _
      | exact mark_inv _ _ (by decide) (mark_inv _ _ (by decide) h)
      | exact mark_inv _ _ (by decide) h
      | exact h
      | (simp only [mark_biz]; rfl)
      | rfl

/-- The eligibility/acceptance step: checklist grows, the invariant is
preserved, and the business fields are unchanged. -/
theorem applyElig_facts (s : State) :
    s.completed_tasks <+: (applyEligibilityAcceptance s).completed_tasks ∧
    (tasksInv s → tasksInv (applyEligibilityAcceptance s)) ∧
    bizFields (applyEligibilityAcceptance s) = bizFields s := by
  unfold applyEligibilityAcceptance
  dsimp only
  split_ifs <;>
    refine ⟨?_, fun h => ?_, ?_⟩ <;>
    first
      | (simp only [mark_eq, List.append_assoc]
         first
           | exact List.prefix_append _ _
           | exact List.prefix_refl _)
      | exact List.prefix_refl _
      | exact mark_inv _ _ (by decide) h
      | exact h
      | (simp only [mark_biz]; rfl)
      | exact (bizFields_accept _).trans (mark_biz _ _)
      | exact bizFields_accept _
      | rfl

/-- The phase update touches only the phase. -/
theorem phaseUpdate_keeps (s : State) :
    (phaseUpdate s).completed_tasks = s.completed_tasks ∧
    (phaseUpdate s).required_tasks = s.required_tasks ∧
    bizFields (phaseUpdate s) = bizFields s := by
  unfold phaseUpdate phaseStepDelinquent phaseStepPost phaseStepOffer
  split_ifs <;> exact ⟨rfl, rfl, rfl⟩

/-- Non-null carry-over of the business fields is transitive. -/
theorem bizCarry_trans {a b c : State} (h1 : bizCarry a b) (h2 : bizCarry b c) :
    bizCarry a c :=
  ⟨fun h => h2.1 (h1.1 h), fun h => h2.2.1 (h1.2.1 h),
   fun h => h2.2.2.1 (h1.2.2.1 h), fun h => h2.2.2.2.1 (h1.2.2.2.1 h),
   fun h => h2.2.2.2.2.1 (h1.2.2.2.2.1 h), fun h => h2.2.2.2.2.2.1 (h1.2.2.2.2.2.1 h),
   fun h => h2.2.2.2.2.2.2 (h1.2.2.2.2.2.2 h)⟩

/-- Equal business fields give non-null carry-over. -/
theorem bizCarry_of_eq {a b : State} (h : bizFields a = bizFields b) : bizCarry a b := by
  rw [bizFields, bizFields, Prod.mk.injEq, Prod.mk.injEq, Prod.mk.injEq, Prod.mk.injEq,
    Prod.mk.injEq, Prod.mk.injEq] at h
  obtain ⟨h1, h2, h3, h4, h5, h6, h7⟩ := h
  exact ⟨fun hx => h1 ▸ hx, fun hx => h2 ▸ hx, fun hx => h3 ▸ hx, fun hx => h4 ▸ hx,
    fun hx => h5 ▸ hx, fun hx => h6 ▸ hx, fun hx => h7 ▸ hx⟩

/-- One primary-specialist invocation: the checklist grows, the checklist
invariant is preserved, and non-null business fields stay non-null. -/
theorem primaryStep_facts (o : PrimaryOracle) (s : State) :
    s.completed_tasks <+: (primaryStep o s).completed_tasks ∧
    (tasksInv s → tasksInv (primaryStep o s)) ∧
    bizCarry s (primaryStep o s) := by
  have e1 := applyExtraction_facts o.extracted s
  have e2 := applyPhotos_facts o.analysisText (applyExtraction o.extracted s)
  have e3 := applyElig_facts (applyPhotos o.analysisText (applyExtraction o.extracted s))
  have e4 := phaseUpdate_keeps
    (applyEligibilityAcceptance (applyPhotos o.analysisText (applyExtraction o.extracted s)))
  have hproj : (primaryStep o s).completed_tasks =
      (applyEligibilityAcceptance
        (applyPhotos o.analysisText (applyExtraction o.extracted s))).completed_tasks := e4.1
  have hreq : (primaryStep o s).required_tasks =
      (applyEligibilityAcceptance
        (applyPhotos o.analysisText (applyExtraction o.extracted s))).required_tasks := e4.2.1
  have hbiz : bizFields (primaryStep o s) =
      bizFields (applyEligibilityAcceptance
        (applyPhotos o.analysisText (applyExtraction o.extracted s))) := e4.2.2
  refine ⟨?_, ?_, ?_⟩
  · rw [hproj]
    exact (e1.1.trans e2.1).trans e3.1
  · intro h
    have h3 := e3.2.1 (e2.2.1 (e1.2.1 h))
    obtain ⟨n3, s3, r3⟩ := h3
    exact ⟨hproj ▸ n3, by rw [hproj, hreq]; exact s3, by rw [hreq]; exact r3⟩
  · refine bizCarry_trans (applyExtraction_biz o.extracted s) ?_
    refine bizCarry_trans (bizCarry_of_eq e2.2.2.symm) ?_
    refine bizCarry_trans (bizCarry_of_eq e3.2.2.symm) ?_
    exact bizCarry_of_eq hbiz.symm

/-- The underwriting update never touches checklist, required list, or
business fields. -/
theorem underwriting_keeps (s s' : State) (h : underwritingProcess s = .ok s') :
    s'.completed_tasks = s.completed_tasks ∧ s'.required_tasks = s.required_tasks ∧
    bizFields s' = bizFields s := by
  unfold underwritingProcess at h
  cases h1 : calculateRiskScore s with
  | error e => rw [h1] at h; exact Except.noConfusion h
  | ok rs =>
    rw [h1] at h
    cases h2 : generateRiskFactors s with
    | error e => rw [h2] at h; exact Except.noConfusion h
    | ok p =>
      rw [h2] at h
      cases p with
      | mk rf str =>
        rw [Except.ok.injEq] at h
        subst h
        exact ⟨rfl, rfl, rfl⟩

/-- The coaching update never touches checklist, required list, or business
fields. -/
theorem coaching_keeps (adv : String) (s s' : State) (h : coachingProcess adv s = .ok s') :
    s'.completed_tasks = s.completed_tasks ∧ s'.required_tasks = s.required_tasks ∧
    bizFields s' = bizFields s := by
  unfold coachingProcess at h
  cases hm : s.monthly_revenue with
  | none => rw [hm] at h; exact Except.noConfusion h
  | some r =>
    rw [hm, Except.ok.injEq] at h
    subst h
    exact ⟨rfl, rfl, by rw [bizFields, bizFields, hm]⟩

/-- The servicing update never touches checklist, required list, or business
fields, on every branch of its dispatch. -/
theorem servicing_keeps (o : ServicingOracle) (s s' : State)
    (h : servicingProcess o s = .ok s') :
    s'.completed_tasks = s.completed_tasks ∧ s'.required_tasks = s.required_tasks ∧
    bizFields s' = bizFields s := by
  unfold servicingProcess at h
  cases hc : servicingCompute o s with
  | error e => rw [hc] at h; exact Except.noConfusion h
  | ok u =>
    rw [hc, Except.ok.injEq] at h
    subst h
    exact ⟨rfl, rfl, rfl⟩

/-- One graph node execution: checklist grows, the checklist invariant is
preserved, and non-null business fields stay non-null. -/
theorem execNode_keeps (orc : ℕ → StepOracle) (idx : ℕ) (node : Node) (s s' : State)
    (h : execNode orc idx node s = .ok s') :
    s.completed_tasks <+: s'.completed_tasks ∧ (tasksInv s → tasksInv s') ∧ bizCarry s s' := by
  cases node with
  | business_partner =>
    unfold execNode at h
    rw [Except.ok.injEq] at h
    subst h
    exact primaryStep_facts _ s
  | underwriting =>
    obtain ⟨h1, h2, h3⟩ := underwriting_keeps s s' h
    exact ⟨h1 ▸ List.prefix_refl _, fun ⟨a, b, c⟩ => ⟨h1 ▸ a, h1 ▸ h2 ▸ b, h2 ▸ c⟩,
      bizCarry_of_eq h3.symm⟩
  | servicing =>
    obtain ⟨h1, h2, h3⟩ := servicing_keeps _ s s' h
    exact ⟨h1 ▸ List.prefix_refl _, fun ⟨a, b, c⟩ => ⟨h1 ▸ a, h1 ▸ h2 ▸ b, h2 ▸ c⟩,
      bizCarry_of_eq h3.symm⟩
  | coaching =>
    obtain ⟨h1, h2, h3⟩ := coaching_keeps _ s s' h
    exact ⟨h1 ▸ List.prefix_refl _, fun ⟨a, b, c⟩ => ⟨h1 ▸ a, h1 ▸ h2 ▸ b, h2 ▸ c⟩,
      bizCarry_of_eq h3.symm⟩

/-- A whole graph invocation that ends with the empty signal: checklist grows,
the checklist invariant is preserved, and non-null business fields stay
non-null. -/
theorem runExec_keeps (orc : ℕ → StepOracle) :
    ∀ (fuel : ℕ) (node : Node) (idx : ℕ) (s s' : State),
      (runExec orc fuel node idx s).1 = .ok s' →
      s.completed_tasks <+: s'.completed_tasks ∧ (tasksInv s → tasksInv s') ∧ bizCarry s s' := by
  intro fuel
  induction fuel with
  | zero =>
    intro node idx s s' h
    exact ExecResult.noConfusion h
  | succ f ih =>
    intro node idx s s' h
    simp only [runExec] at h
    revert h
    cases hx : execNode orc idx node s with
    | error e => intro h; exact ExecResult.noConfusion h
    | ok s1 =>
      dsimp only
      cases hn : nextNode node s1 with
      | none =>
        intro h
        rw [ExecResult.ok.injEq] at h
        subst h
        exact execNode_keeps orc idx node s s1 hx
      | some n =>
        intro h
        obtain ⟨p1, p2, p3⟩ := execNode_keeps orc idx node s s1 hx
        obtain ⟨q1, q2, q3⟩ := ih n (idx + 1) s1 s' h
        exact ⟨p1.trans q1, fun hh => q2 (p2 hh), bizCarry_trans p3 q3⟩

/-- The turn merge keeps checklist, required list and business fields. -/
theorem mergedState_keeps (es : State) (cid : Option String) (req : ChatRequest) :
    (mergedState es cid req).completed_tasks = es.completed_tasks ∧
    (mergedState es cid req).required_tasks = es.required_tasks ∧
    bizFields (mergedState es cid req) = bizFields es ∧
    (mergedState es cid req).messages = es.messages ++ lastSlice (langchainMessages req) :=
  ⟨rfl, rfl, rfl, rfl⟩

/-- A failed turn aborts the whole sequence. -/
theorem runTurns_none (l : List TurnIn) :
    l.foldl (fun acc t => acc.bind (turnStep t)) none = none := by
  induction l with
  | nil => rfl
  | cons t rest ih => simpa using ih

/-- One completed turn: checklist grows, the checklist invariant is preserved,
and non-null business fields stay non-null. -/
theorem turnStep_keeps (t : TurnIn) (s s1 : State) (h : turnStep t s = some s1) :
    s.completed_tasks <+: s1.completed_tasks ∧ (tasksInv s → tasksInv s1) ∧ bizCarry s s1 := by
  unfold turnStep at h
  revert h
  cases hr : (runExec t.orc 25 .business_partner 0 (mergedState s t.cid t.req)).1 with
  | ok s2 =>
    intro h
    rw [Option.some.injEq] at h
    subst h
    obtain ⟨p1, p2, p3⟩ := runExec_keeps t.orc 25 .business_partner 0 _ s2 hr
    exact ⟨p1, p2, p3⟩
  | recursionError => intro h; exact Option.noConfusion h
  | pyError e => intro h; exact Option.noConfusion h

/-- A sequence of completed turns: checklist grows, the checklist invariant is
preserved, and non-null business fields stay non-null. -/
theorem runTurns_keeps :
    ∀ (turns : List TurnIn) (s s' : State),
      runTurns turns s = some s' →
      s.completed_tasks <+: s'.completed_tasks ∧ (tasksInv s → tasksInv s') ∧ bizCarry s s' := by
  intro turns
  induction turns with
  | nil =>
    intro s s' h
    simp only [runTurns, List.foldl_nil, Option.some.injEq] at h
    subst h
    exact ⟨List.prefix_refl _, id, bizCarry_of_eq rfl⟩
  | cons t rest ih =>
    intro s s' h
    rw [runTurns, List.foldl_cons, Option.some_bind] at h
    cases ht : turnStep t s with
    | none =>
      rw [ht, runTurns_none] at h
      exact Option.noConfusion h
    | some s1 =>
      rw [ht] at h
      obtain ⟨p1, p2, p3⟩ := turnStep_keeps t s s1 ht
      obtain ⟨q1, q2, q3⟩ := ih s1 s' h
      exact ⟨p1.trans q1, fun hh => q2 (p2 hh), bizCarry_trans p3 q3⟩

/-- C7: the completed-task checklist is monotone and set-like: a mark only
appends, one primary invocation only extends the checklist while preserving
freedom from duplicates and containment in the fixed required list, every
successful graph run and every sequence of completed turns extends it, and
the turn merge copies it unchanged. -/
theorem checklist_monotone :
    (∀ (s : State) (t : String), s.completed_tasks <+: (markTaskComplete s t).completed_tasks) ∧
    (∀ (o : PrimaryOracle) (s : State),
      s.completed_tasks <+: (primaryStep o s).completed_tasks ∧
      (tasksInv s → tasksInv (primaryStep o s))) ∧
    (∀ (orc : ℕ → StepOracle) (fuel : ℕ) (node : Node) (idx : ℕ) (s s' : State),
      (runExec orc fuel node idx s).1 = .ok s' →
      s.completed_tasks <+: s'.completed_tasks ∧ (tasksInv s → tasksInv s')) ∧
    (∀ (es : State) (cid : Option String) (req : ChatRequest),
      (mergedState es cid req).completed_tasks = es.completed_tasks) ∧
    (∀ (turns : List TurnIn) (s s' : State),
      runTurns turns s = some s' →
      s.completed_tasks <+: s'.completed_tasks ∧ (tasksInv s → tasksInv s')) := by
  refine ⟨mark_extends, ?_, ?_, ?_, ?_⟩
  · intro o s
    exact ⟨(primaryStep_facts o s).1, (primaryStep_facts o s).2.1⟩
  · intro orc fuel node idx s s' h
    exact ⟨(runExec_keeps orc fuel node idx s s' h).1, (runExec_keeps orc fuel node idx s s' h).2.1⟩
  · intro es cid req
    exact (mergedState_keeps es cid req).1
  · intro turns s s' h
    exact ⟨(runTurns_keeps turns s s' h).1, (runTurns_keeps turns s s' h).2.1⟩

/-- Witness for the checklist theorem on a concrete state: the fresh state's
empty checklist satisfies the invariant and is extended by a primary
invocation that marks nothing. -/
theorem checklist_monotone_witness :
    runTurns [] (freshState "s" "u" (some "c") none) = some (freshState "s" "u" (some "c") none) ∧
    (freshState "s" "u" (some "c") none).completed_tasks <+:
      (freshState "s" "u" (some "c") none).completed_tasks ∧
    tasksInv (freshState "s" "u" (some "c") none) := by
  refine ⟨rfl, ?_, ?_⟩
  · exact (checklist_monotone.2.2.2.2 [] _ _ rfl).1
  · exact (checklist_monotone.2.2.2.2 [] _ _ rfl).2
      ⟨List.nodup_nil, by simp [freshState], rfl⟩

/-- C8: the turn merge starts from the full previous state, appends exactly
the latest user message to the history, and copies every scalar business
field; one primary invocation, every successful graph run, and every sequence
of completed turns never turn a non-null business field null. -/
theorem merge_preserves_fields :
    (∀ (es : State) (cid : Option String) (req : ChatRequest),
      (mergedState es cid req).messages = es.messages ++ lastSlice (langchainMessages req) ∧
      bizFields (mergedState es cid req) = bizFields es) ∧
    (∀ (o : PrimaryOracle) (s : State), bizCarry s (primaryStep o s)) ∧
    (∀ (orc : ℕ → StepOracle) (fuel : ℕ) (node : Node) (idx : ℕ) (s s' : State),
      (runExec orc fuel node idx s).1 = .ok s' → bizCarry s s') ∧
    (∀ (turns : List TurnIn) (s s' : State),
      runTurns turns s = some s' → bizCarry s s') := by
  refine ⟨?_, ?_, ?_, ?_⟩
  · intro es cid req
    exact ⟨(mergedState_keeps es cid req).2.2.2, (mergedState_keeps es cid req).2.2.1⟩
  · intro o s
    exact (primaryStep_facts o s).2.2
  · intro orc fuel node idx s s' h
    exact (runExec_keeps orc fuel node idx s s' h).2.2
  · intro turns s s' h
    exact (runTurns_keeps turns s s' h).2.2

/-- Witness for the field-retention theorem on a concrete state: the non-null
business type survives an empty turn sequence. -/
theorem merge_preserves_fields_witness :
    runTurns [] retainS = some retainS ∧ retainS.business_type.isSome = true :=
  ⟨rfl, (merge_preserves_fields.2.2.2 [] retainS retainS rfl).1 rfl⟩

/-- Witness for the amended persona theorem at a concrete state: the user's
non-null business type survives persona initialization. -/
theorem persona_null_guard_witness :
    (initialize_state_from_persona personaWitnessS preLoanTienda).business_type = some "bakery" ∧
    (initialize_state_from_persona personaWitnessS preLoanTienda).phase = "onboarding" := by
  refine ⟨?_, ?_⟩
  · exact (persona_null_guard_amended personaWitnessS preLoanTienda).1 (by decide)
  · exact (persona_null_guard_amended personaWitnessS preLoanTienda).2.2.2.2.2.2.2.2.2.2.2.2.1

end BP
